import Mathlib

/-!
Verification development for the MONCoind RPC client
(`src/lib/moncoind-rpc.js`).

The JavaScript code is shallowly embedded: JSON values become the
inductive `JSValue`, thrown exceptions become `Except JSError`, and the
client object's state (`this.host`, `this.port`, ...) is threaded
explicitly through `ClientM`.  Each RPC method of the class is split
into the part that runs before the HTTP request (argument validation and
request construction, a `ClientM Request`) and the response handler that
runs afterwards (the `.then` callback, a pure
`JSValue → Except JSError JSValue`).
-/

/-- A JavaScript/JSON value as handled by the client. `undefined` is the
result of reading an absent object property. -/
inductive JSValue where
  | undefined : JSValue
  | null : JSValue
  | bool : Bool → JSValue
  | num : Int → JSValue
  | str : String → JSValue
  | arr : List JSValue → JSValue
  | obj : List (String × JSValue) → JSValue
deriving Repr

/-- A thrown JavaScript exception: either `new Error(message)` thrown by
the client's own code, or a `TypeError` raised by the runtime (property
or method access on a value of the wrong type). -/
inductive JSError where
  | error : String → JSError
  | typeError : JSError
deriving Repr, DecidableEq

namespace JSValue

/-- Property lookup in a field list: first binding wins, absent gives
`undefined` (JavaScript `o[k]`). -/
def lookupField : List (String × JSValue) → String → JSValue
  | [], _ => .undefined
  | (k2, v) :: rest, k => if k2 = k then v else lookupField rest k

/-- JavaScript property read `v[k]`: `undefined` when the key is absent
or the value is not an object. -/
def getField : JSValue → String → JSValue
  | .obj fields, k => lookupField fields k
  | _, _ => .undefined

/-- Whether an object value carries the key `k` at all. -/
def hasField : JSValue → String → Bool
  | .obj fields, k => fields.any (fun f => f.1 == k)
  | _, _ => false

/-- Assignment `o[k] = v` on a field list: overwrite the first binding
of `k`, or append a new one. -/
def setFields : List (String × JSValue) → String → JSValue → List (String × JSValue)
  | [], k, v => [(k, v)]
  | (k2, v2) :: rest, k, v =>
      if k2 = k then (k, v) :: rest else (k2, v2) :: setFields rest k v

/-- JavaScript property assignment `o[k] = v` (no effect on
non-objects, which never occurs on the paths modelled here). -/
def setField : JSValue → String → JSValue → JSValue
  | .obj fields, k, v => .obj (setFields fields k v)
  | o, _, _ => o

/-- JavaScript `delete o[k]`. -/
def deleteField : JSValue → String → JSValue
  | .obj fields, k => .obj (fields.filter (fun f => f.1 != k))
  | o, _ => o

/-- JavaScript truthiness (`NaN` does not arise: numbers are modelled as
integers). -/
def truthy : JSValue → Bool
  | .undefined => false
  | .null => false
  | .bool b => b
  | .num n => n != 0
  | .str s => s != ""
  | .arr _ => true
  | .obj _ => true

/-- `Array.isArray`. -/
def isArray : JSValue → Bool
  | .arr _ => true
  | _ => false

/-- Whether the value is a plain object. -/
def isObj : JSValue → Bool
  | .obj _ => true
  | _ => false

/-- Whether the value is `undefined` (`typeof v === 'undefined'`). -/
def isUndefined : JSValue → Bool
  | .undefined => true
  | _ => false

end JSValue

/-- String conversion of a scalar inside an array join: `undefined` and
`null` render as the empty string there (`Array.prototype.toString`). -/
def scalarToString : JSValue → String
  | .undefined => ""
  | .null => ""
  | .bool b => cond b "true" "false"
  | .num n => toString n
  | .str s => s
  | .arr _ => ""
  | .obj _ => "[object Object]"

/-- JavaScript `String(v)` coercion, as used by `util.format('%s', v)`.
Arrays join their elements with commas (one level: nested arrays do not
occur in the code paths modelled here). -/
def jsToString : JSValue → String
  | .undefined => "undefined"
  | .null => "null"
  | .bool b => cond b "true" "false"
  | .num n => toString n
  | .str s => s
  | .arr xs => String.intercalate "," (xs.map scalarToString)
  | .obj _ => "[object Object]"

/-- The message of `new Error(v)`: the empty string when `v` is
`undefined`, otherwise the string coercion of `v`. -/
def newErrorMessage : JSValue → String
  | .undefined => ""
  | v => jsToString v

/-- Lowercase one character (`String.prototype.toLowerCase`, ASCII
range, which covers the daemon's status strings). -/
def lowerChar (ch : Char) : Char :=
  if 'A' ≤ ch ∧ ch ≤ 'Z' then Char.ofNat (ch.toNat + 32) else ch

/-- `s.toLowerCase()` on a string. -/
def lowerString (s : String) : String := String.mk (s.data.map lowerChar)

/-- `s.toLowerCase()` on a JavaScript value: only strings carry the
method, anything else raises a `TypeError`. -/
def jsToLower : JSValue → Except JSError String
  | .str s => .ok (lowerString s)
  | _ => .error .typeError

/-- Calling `.forEach` (or otherwise iterating) on a value: a
`TypeError` unless it is an array. -/
def jsAsArray : JSValue → Except JSError (List JSValue)
  | .arr xs => .ok xs
  | _ => .error .typeError

/-! ### The client object and its configuration -/

/-- The `MONCoind` client instance: exactly the fields assigned by the
constructor (`this.host`, `this.port`, `this.timeout`, `this.ssl`,
`this.userAgent`, `this.keepAlive`).  All are kept as JavaScript values,
as in the source. -/
structure MONCoind where
  host : JSValue
  port : JSValue
  timeout : JSValue
  ssl : JSValue
  userAgent : JSValue
  keepAlive : JSValue
deriving Repr

/-- Modelled from the spec: the package name from `package.json`, which
is not under `src/`; only the default identification string
`name/version` depends on it. -/
def packageName : String := "moncoin-rpc"

/-- Modelled from the spec: the package version from `package.json`,
which is not under `src/`. -/
def packageVersion : String := "1.0.0"

/-- The constructor (source lines 27-35): each configuration field is
the supplied option or its default. -/
def MONCoind.make (o : JSValue) : MONCoind :=
  let opts := if o.truthy then o else JSValue.obj []
  { host := if (opts.getField "host").truthy then opts.getField "host" else .str "127.0.0.1"
    port := if (opts.getField "port").truthy then opts.getField "port" else .num 12898
    timeout := if (opts.getField "timeout").truthy then opts.getField "timeout" else .num 2000
    ssl := if (opts.getField "ssl").truthy then opts.getField "ssl" else .bool false
    userAgent :=
      if (opts.getField "userAgent").truthy then opts.getField "userAgent"
      else .str (packageName ++ "/" ++ packageVersion)
    keepAlive :=
      if (opts.getField "keepAlive").isUndefined then .bool true
      else opts.getField "keepAlive" }

/-- An HTTP request handed to the `request` library: the options object
built by `_get` / `_rawPost`. -/
structure Request where
  httpMethod : String
  uri : String
  body : Option JSValue
  timeout : JSValue
  forever : JSValue
  userAgent : JSValue
deriving Repr

/-- `util.format('%s://%s:%s/%s', protocol, this.host, this.port, x)`. -/
def mkUri (c : MONCoind) (endpoint : String) : String :=
  (if c.ssl.truthy then "https" else "http") ++ "://" ++ jsToString c.host ++ ":"
    ++ jsToString c.port ++ "/" ++ endpoint

/-! ### The client monad

Method bodies read the configuration through `this`; an assignment to a
configuration field would appear here as a state write.  The source
contains none outside the constructor, and the final state returned by
every operation records that. -/

/-- A computation over the client instance: it may read or write the
configuration and either return a value or throw. -/
def ClientM (α : Type) : Type := MONCoind → MONCoind × Except JSError α

namespace ClientM

def pure (a : α) : ClientM α := fun c => (c, .ok a)

def throw (e : JSError) : ClientM α := fun c => (c, .error e)

/-- Read `this`. -/
def read : ClientM MONCoind := fun c => (c, .ok c)

def bind (m : ClientM α) (f : α → ClientM β) : ClientM β := fun c =>
  match m c with
  | (c2, .ok a) => f a c2
  | (c2, .error e) => (c2, .error e)

def map (f : α → β) (m : ClientM α) : ClientM β := fun c =>
  match m c with
  | (c2, .ok a) => (c2, .ok (f a))
  | (c2, .error e) => (c2, .error e)

end ClientM

/-! ### The private request helpers `_get`, `_rawPost`, `_post` -/

/-- `_get` (source lines 44-58): reject an empty method name, then build
the GET request from the configuration. -/
def getBuild (method : String) : ClientM Request :=
  if method.length = 0 then ClientM.throw (.error "no method supplied")
  else ClientM.bind ClientM.read (fun c => ClientM.pure
    { httpMethod := "GET"
      uri := mkUri c method
      body := none
      timeout := c.timeout
      forever := c.keepAlive
      userAgent := c.userAgent })

/-- `_rawPost` (source lines 94-110).  Note the source's
`throw new new Error(...)()` on lines 95-96: applying `new` to an
`Error` instance raises a `TypeError`, so that is what an empty endpoint
or an undefined body produces (neither occurs from the class's own call
sites). -/
def rawPostBuild (endpoint : String) (body : JSValue) : ClientM Request :=
  if endpoint.length = 0 then ClientM.throw .typeError
  else if body.isUndefined then ClientM.throw .typeError
  else ClientM.bind ClientM.read (fun c => ClientM.pure
    { httpMethod := "POST"
      uri := mkUri c endpoint
      body := some body
      timeout := c.timeout
      forever := c.keepAlive
      userAgent := c.userAgent })

/-- The request-building half of `_post` (source lines 68-78): wrap the
method and parameters in a JSON-RPC 2.0 envelope and dispatch it to
`_rawPost('json_rpc', ...)`. -/
def postBuild (method : String) (params : JSValue) : ClientM Request :=
  if method.length = 0 then ClientM.throw (.error "no method supplied")
  else
    let params2 := if params.truthy then params else JSValue.obj []
    rawPostBuild "json_rpc"
      (.obj [("jsonrpc", .str "2.0"), ("method", .str method), ("params", params2)])

/-- The response half of `_post` (source lines 79-83): a truthy `error`
field in the envelope rejects with `new Error(response.error.message)`,
otherwise the call resolves with the `result` field. -/
def postNormalize (resp : JSValue) : Except JSError JSValue :=
  if (resp.getField "error").truthy then
    .error (.error (newErrorMessage ((resp.getField "error").getField "message")))
  else .ok (resp.getField "result")

/-- A `.then(response => response.f)` handler chained after `_post`. -/
def rpcFieldNormalize (f : String) (resp : JSValue) : Except JSError JSValue :=
  match postNormalize resp with
  | .error e => .error e
  | .ok r => .ok (r.getField f)

/-- The identity response handler, for operations with no `.then`. -/
def idNormalize (resp : JSValue) : Except JSError JSValue := .ok resp

/-- Run one operation against a transport: build the request, and only
if building succeeded hand the request to the transport and normalize
what it returns.  The `Option Request` component records whether a
request was issued at all. -/
def runOp (build : ClientM Request) (norm : JSValue → Except JSError JSValue)
    (transport : Request → JSValue) (c : MONCoind) :
    MONCoind × Option Request × Except JSError JSValue :=
  match build c with
  | (c2, .error e) => (c2, none, .error e)
  | (c2, .ok req) => (c2, some req, norm (transport req))

/-! ### Number and hex helpers (`parseInt`, `isNaN`, `Math.abs`,
`Buffer.from(...).toString('hex')`) -/

/-- Accumulate the value of a list of decimal digit characters. -/
def digitsVal : List Char → Nat → Nat
  | [], acc => acc
  | ch :: rest, acc => digitsVal rest (acc * 10 + (ch.toNat - 48))

/-- Whether a character is an ASCII decimal digit. -/
def isDigitChar (ch : Char) : Bool :=
  decide ('0' ≤ ch) && decide (ch ≤ '9')

/-- Whether a character is JavaScript whitespace (the forms that occur
here). -/
def isSpaceChar (ch : Char) : Bool :=
  ch == ' ' || ch == '\t' || ch == '\n' || ch == '\r'

/-- The leading run of decimal digits, `none` when there is none. -/
def leadingDigits (chars : List Char) : Option Nat :=
  match chars.takeWhile isDigitChar with
  | [] => none
  | ds => some (digitsVal ds 0)

/-- `parseInt(s)` (radix 10): skip leading whitespace, accept an
optional sign, read the leading digits; `none` models `NaN`. -/
def parseIntString (s : String) : Option Int :=
  match s.data.dropWhile isSpaceChar with
  | '-' :: rest => (leadingDigits rest).map (fun n => -(n : Int))
  | '+' :: rest => (leadingDigits rest).map (fun n => (n : Int))
  | rest => (leadingDigits rest).map (fun n => (n : Int))

/-- `parseInt(v)`: the argument is first coerced to a string. -/
def parseIntJS (v : JSValue) : Option Int :=
  parseIntString (jsToString v)

/-- `Number(s)` on a string: the whole trimmed string must be numeric,
and the empty string is `0` (fractional and hex forms are not needed by
any call site modelled here). -/
def numberOfString (s : String) : Option Int :=
  let t := (s.data.dropWhile isSpaceChar).reverse.dropWhile isSpaceChar |>.reverse
  match t with
  | [] => some 0
  | '-' :: rest => if rest ≠ [] ∧ rest.all isDigitChar then some (-(digitsVal rest 0 : Int)) else none
  | '+' :: rest => if rest ≠ [] ∧ rest.all isDigitChar then some (digitsVal rest 0 : Int) else none
  | rest => if rest.all isDigitChar then some (digitsVal rest 0 : Int) else none

/-- `Number(v)` coercion, as applied by the global `isNaN` and by
`Math.abs`; `none` models `NaN`. -/
def jsToNumber : JSValue → Option Int
  | .undefined => none
  | .null => some 0
  | .bool b => some (cond b 1 0)
  | .num n => some n
  | .str s => numberOfString s
  | .arr xs => numberOfString (jsToString (.arr xs))
  | .obj _ => none

/-- One byte of a `Buffer.from(array)` element: numbers are reduced
modulo 256; only numeric byte arrays occur in the responses modelled
here. -/
def jsToByte : JSValue → Nat
  | .num n => (n % 256).toNat
  | .bool b => cond b 1 0
  | _ => 0

/-- `Buffer.from(v)`: an array yields its coerced bytes, anything else
on the paths modelled here raises a `TypeError`. -/
def bufferFrom : JSValue → Except JSError (List Nat)
  | .arr xs => .ok (xs.map jsToByte)
  | _ => .error .typeError

/-- The lowercase hexadecimal digit of a value below 16. -/
def hexDigit (n : Nat) : Char :=
  if n < 10 then Char.ofNat (48 + n) else Char.ofNat (87 + n)

/-- The character list of `Buffer.from(bytes).toString('hex')`: two
lowercase hex digits per byte, in order. -/
def bytesToHexChars : List Nat → List Char
  | [] => []
  | b :: rest => hexDigit (b % 256 / 16) :: hexDigit (b % 16) :: bytesToHexChars rest

/-- `Buffer.from(bytes).toString('hex')`. -/
def bufferToHex (bytes : List Nat) : String :=
  String.mk (bytesToHexChars bytes)

/-! ### The public operations

Each operation `x` of the class becomes `xBuild` (everything before the
HTTP call) and, when the source chains a `.then` handler on the
response, `xNormalize`; `xRun` glues them through `runOp`. -/

/-- `block` (source lines 155-160). -/
def blockBuild (hash : JSValue) : ClientM Request :=
  if !hash.truthy then ClientM.throw (.error "must specify hash")
  else postBuild "f_block_json" (.obj [("hash", hash)])

/-- The `.then` of `block`: the `block` sub-field of the RPC result. -/
def blockNormalize : JSValue → Except JSError JSValue :=
  rpcFieldNormalize "block"

/-- `blockCount` (source lines 167-170). -/
def blockCountBuild : ClientM Request :=
  postBuild "getblockcount" .undefined

/-- The `.then` of `blockCount`: the `count` sub-field. -/
def blockCountNormalize : JSValue → Except JSError JSValue :=
  rpcFieldNormalize "count"

/-- `blockHeaderByHash` (source lines 197-202).  The source reads
`response.block_head`, not `response.block_header`. -/
def blockHeaderByHashBuild (hash : JSValue) : ClientM Request :=
  if !hash.truthy then ClientM.throw (.error "must specify hash")
  else postBuild "getblockheaderbyhash" (.obj [("hash", hash)])

/-- The `.then` of `blockHeaderByHash`, with the source's `block_head`
field name. -/
def blockHeaderByHashNormalize : JSValue → Except JSError JSValue :=
  rpcFieldNormalize "block_head"

/-- `blockHeaderByHeight` (source lines 210-215). -/
def blockHeaderByHeightBuild (height : JSValue) : ClientM Request :=
  if height.isUndefined then ClientM.throw (.error "must specify height")
  else postBuild "getblockheaderbyheight" (.obj [("height", height)])

/-- The `.then` of `blockHeaderByHeight`: the `block_header`
sub-field. -/
def blockHeaderByHeightNormalize : JSValue → Except JSError JSValue :=
  rpcFieldNormalize "block_header"

/-- `blockShortHeaders` (source lines 235-240). -/
def blockShortHeadersBuild (height : JSValue) : ClientM Request :=
  if height.isUndefined then ClientM.throw (.error "must specify height")
  else postBuild "f_blocks_list_json" (.obj [("height", height)])

/-- The `.then` of `blockShortHeaders`: the `blocks` sub-field. -/
def blockShortHeadersNormalize : JSValue → Except JSError JSValue :=
  rpcFieldNormalize "blocks"

/-- The statement pattern `if (opts.k === undefined) opts.k = v`:
assign a default into the caller's object when the field is absent. -/
def defaultField (o : JSValue) (k : String) (v : JSValue) : JSValue :=
  if (o.getField k).isUndefined then o.setField k v else o

/-- The statement pattern `if (!opts.k) opts.k = v`: assign a default
into the caller's object when the field is falsy. -/
def defaultFieldFalsy (o : JSValue) (k : String) (v : JSValue) : JSValue :=
  if !(o.getField k).truthy then o.setField k v else o

/-- The default-writing steps of `blocksDetailed` (source lines
399-400): `opts.timestamp = 0` and `opts.blockCount = 100` are assigned
into the caller's options object when absent. -/
def blocksDetailedOpts (opts : JSValue) : JSValue :=
  defaultField (defaultField opts "timestamp" (.num 0)) "blockCount" (.num 100)

/-- `blocksDetailed` (source lines 396-409): validate the hash array,
write the defaulted `timestamp` and `blockCount` back into the caller's
options object, then post.  The updated options object is returned
alongside the request because the source mutates the caller's object. -/
def blocksDetailedBuild (opts0 : JSValue) : ClientM (JSValue × Request) :=
  let opts := if opts0.truthy then opts0 else JSValue.obj []
  if !(opts.getField "blockHashes").isArray then
    ClientM.throw (.error "must supply an array of block hashes")
  else
    let opts3 := blocksDetailedOpts opts
    let body := JSValue.obj
      [("blockIds", opts3.getField "blockHashes"),
       ("timestamp", opts3.getField "timestamp"),
       ("blockCount", opts3.getField "blockCount")]
    ClientM.bind (rawPostBuild "queryblocksdetailed" body)
      (fun req => ClientM.pure (opts3, req))

/-- The default-writing step of `blocksLite` (source line 444):
`opts.timestamp = 0` is assigned into the caller's options object when
absent. -/
def blocksLiteOpts (opts : JSValue) : JSValue :=
  defaultField opts "timestamp" (.num 0)

/-- `blocksLite` request building (source lines 441-451). -/
def blocksLiteBuild (opts0 : JSValue) : ClientM (JSValue × Request) :=
  let opts := if opts0.truthy then opts0 else JSValue.obj []
  if !(opts.getField "blockHashes").isArray then
    ClientM.throw (.error "must supply an array of block hashes")
  else
    let opts2 := blocksLiteOpts opts
    let body := JSValue.obj
      [("blockIds", opts2.getField "blockHashes"),
       ("timestamp", opts2.getField "timestamp")]
    ClientM.bind (rawPostBuild "queryblockslite" body)
      (fun req => ClientM.pure (opts2, req))

/-- The reshaping of one transaction entry inside `blocksLite` /
`poolChanges`: the dotted keys become `hash` and a plain prefix key on a
fresh object. -/
def reshapeTx (tx : JSValue) : JSValue :=
  .obj [("hash", tx.getField "transactionPrefixInfo.txHash"),
        ("prefix", tx.getField "transactionPrefixInfo.txPrefix")]

/-- The per-item reshaping inside the `.then` of `blocksLite` (source
lines 456-471): iterate the dotted transaction list, hex-encode the
block bytes, and rebuild the item with plain keys. -/
def blocksLiteItem (item : JSValue) : Except JSError JSValue :=
  match jsAsArray (item.getField "blockShortInfo.txPrefixes") with
  | .error e => .error e
  | .ok txns =>
    match bufferFrom (item.getField "blockShortInfo.block") with
    | .error e => .error e
    | .ok bytes => .ok (.obj
        [("block", .str (bufferToHex bytes)),
         ("hash", item.getField "blockShortInfo.blockId"),
         ("transactions", .arr (txns.map reshapeTx))])

/-- A `forEach` loop whose body may throw: apply `f` to every element
in order, aborting at the first thrown error. -/
def mapOrThrow (f : JSValue → Except JSError JSValue) :
    List JSValue → Except JSError (List JSValue)
  | [] => .ok []
  | x :: rest =>
    match f x with
    | .error e => .error e
    | .ok y =>
      match mapOrThrow f rest with
      | .error e => .error e
      | .ok ys => .ok (y :: ys)

/-- The `.then` of `blocksLite` (source lines 452-476): rebuild every
item and write the rebuilt list back into the response's `items`
field. -/
def blocksLiteNormalize (resp : JSValue) : Except JSError JSValue :=
  match jsAsArray (resp.getField "items") with
  | .error e => .error e
  | .ok items =>
    match mapOrThrow blocksLiteItem items with
    | .error e => .error e
    | .ok tmp => .ok (resp.setField "items" (.arr tmp))

/-- `blockTemplate` (source lines 497-505). -/
def blockTemplateBuild (walletAddress reserveSize : JSValue) : ClientM Request :=
  if reserveSize.isUndefined then ClientM.throw (.error "must specify reserveSize")
  else if !walletAddress.truthy then ClientM.throw (.error "must specify walletAddress")
  else postBuild "getblocktemplate"
    (.obj [("reserve_size", reserveSize), ("wallet_address", walletAddress)])

/-- `fee` (source lines 521-523). -/
def feeBuild : ClientM Request := getBuild "fee"

/-- `globalIndexes` (source lines 531-544). -/
def globalIndexesBuild (transactionHash : JSValue) : ClientM Request :=
  if transactionHash.isUndefined then ClientM.throw (.error "must supply a transaction hash")
  else rawPostBuild "get_o_indexes" (.obj [("txid", transactionHash)])

/-- The `.then` of `globalIndexes` (source lines 539-543):
`response.status.toLowerCase()` is compared against `'ok'` with no prior
presence check, then `o_indexes` is returned. -/
def globalIndexesNormalize (resp : JSValue) : Except JSError JSValue :=
  match jsToLower (resp.getField "status") with
  | .error e => .error e
  | .ok s =>
    if s ≠ "ok" then .error (.error "Transaction not found")
    else .ok (resp.getField "o_indexes")

/-- `globalIndexesForRange` (source lines 561-572). -/
def globalIndexesForRangeBuild (startHeight endHeight : JSValue) : ClientM Request :=
  if startHeight.isUndefined then ClientM.throw (.error "Must specify start height")
  else if endHeight.isUndefined then ClientM.throw (.error "Must specify end height")
  else rawPostBuild "get_global_indexes_for_range"
    (.obj [("startHeight", startHeight), ("endHeight", endHeight)])

/-- The `.then` of `globalIndexesForRange` (source lines 566-571). -/
def globalIndexesForRangeNormalize (resp : JSValue) : Except JSError JSValue :=
  if !(resp.getField "status").truthy || !(resp.getField "indexes").truthy then
    .error (.error "Missing indexes or status key")
  else match jsToLower (resp.getField "status") with
    | .error e => .error e
    | .ok s =>
      if s ≠ "ok" then .error (.error "Status is not OK")
      else .ok (resp.getField "indexes")

/-- `height` (source lines 588-590). -/
def heightBuild : ClientM Request := getBuild "height"

/-- `info` (source lines 623-625). -/
def infoBuild : ClientM Request := getBuild "info"

/-- `lastBlockHeader` (source lines 632-635). -/
def lastBlockHeaderBuild : ClientM Request :=
  postBuild "getlastblockheader" .undefined

/-- The `.then` of `lastBlockHeader`: the `block_header` sub-field. -/
def lastBlockHeaderNormalize : JSValue → Except JSError JSValue :=
  rpcFieldNormalize "block_header"

/-- `peers` (source lines 651-653). -/
def peersBuild : ClientM Request := getBuild "peers"

/-- `poolChanges` (source lines 678-687). -/
def poolChangesBuild (tailBlockHash knownTransactionHashes : JSValue) : ClientM Request :=
  if tailBlockHash.isUndefined then ClientM.throw (.error "must supply a tail block hash")
  else if !knownTransactionHashes.isArray then
    ClientM.throw (.error "must supply an array of known transaction hashes")
  else rawPostBuild "get_pool_changes_lite"
    (.obj [("tailBlockId", tailBlockHash), ("knownTxsIds", knownTransactionHashes)])

/-- The `.then` of `poolChanges` (source lines 688-703): rebuild each
added transaction with plain keys and write the list back into the
response's `addedTxs` field. -/
def poolChangesNormalize (resp : JSValue) : Except JSError JSValue :=
  match jsAsArray (resp.getField "addedTxs") with
  | .error e => .error e
  | .ok added => .ok (resp.setField "addedTxs" (.arr (added.map reshapeTx)))

/-- `randomOutputs` (source lines 737-750): the mixin is run through
`parseInt` and rejected when the result is `NaN`. -/
def randomOutputsBuild (amounts mixin : JSValue) : ClientM Request :=
  if !amounts.isArray then ClientM.throw (.error "must supply an array of amounts")
  else if mixin.isUndefined then ClientM.throw (.error "must supply a mixin value")
  else match parseIntJS mixin with
    | none => ClientM.throw (.error "must supply a valid mixin value")
    | some m => rawPostBuild "getrandom_outs"
        (.obj [("amounts", amounts), ("outs_count", .num m)])

/-- `rawBlocks` (source lines 787-799). -/
def rawBlocksBuild (blockHashes blockCount : JSValue) : ClientM Request :=
  if !blockHashes.isArray then ClientM.throw (.error "must supply an array of block hashes")
  else if blockCount.truthy && (jsToNumber blockCount).isNone then
    ClientM.throw (.error "block count must be a number")
  else
    let body := JSValue.obj [("block_ids", blockHashes)]
    let body2 := if blockCount.truthy then
        body.setField "blockCount" (.num ((jsToNumber blockCount).getD 0).natAbs)
      else body
    rawPostBuild "getblocks" body2

/-- The `.then` of `rawBlocks` (source lines 800-811): a fresh object
exposing the four `response.`-dotted fields under plain names. -/
def rawBlocksNormalize (resp : JSValue) : Except JSError JSValue :=
  .ok (.obj
    [("blocks", resp.getField "response.blocks"),
     ("current_height", resp.getField "response.current_height"),
     ("start_height", resp.getField "response.start_height"),
     ("status", resp.getField "response.status")])

/-- `sendRawTransaction` (source lines 827-831). -/
def sendRawTransactionBuild (transaction : JSValue) : ClientM Request :=
  if !transaction.truthy then ClientM.throw (.error "must specify raw serialized transaction")
  else rawPostBuild "sendrawtransaction" (.obj [("tx_as_hex", transaction)])

/-- `submitBlock` (source lines 846-850). -/
def submitBlockBuild (blockBlob : JSValue) : ClientM Request :=
  if !blockBlob.truthy then ClientM.throw (.error "must specify blockBlob")
  else postBuild "submitblock" (.arr [blockBlob])

/-- `transaction` (source lines 926-935). -/
def transactionBuild (hash : JSValue) : ClientM Request :=
  if !hash.truthy then ClientM.throw (.error "must specify hash")
  else postBuild "f_transaction_json" (.obj [("hash", hash)])

/-- The empty-key stripping inside the `.then` of `transaction` (source
lines 930-934): the empty-string key of `tx` is deleted only when both
`response.tx` and `response.tx['']` are truthy. -/
def stripEmptyTxKey (resp : JSValue) : Except JSError JSValue :=
  let tx := resp.getField "tx"
  if tx.truthy && (tx.getField "").truthy then
    .ok (resp.setField "tx" (tx.deleteField ""))
  else .ok resp

/-- The full response handler of `transaction`: the JSON-RPC envelope
handling of `_post` followed by the empty-key stripping. -/
def transactionNormalize (resp : JSValue) : Except JSError JSValue :=
  match postNormalize resp with
  | .error e => .error e
  | .ok r => stripEmptyTxKey r

/-- `transactionPool` (source lines 942-945). -/
def transactionPoolBuild : ClientM Request :=
  postBuild "f_on_transactions_pool_json" .undefined

/-- The `.then` of `transactionPool`: the `transactions` sub-field. -/
def transactionPoolNormalize : JSValue → Except JSError JSValue :=
  rpcFieldNormalize "transactions"

/-- `transactionsStatus` (source lines 962-976). -/
def transactionsStatusBuild (transactionHashes : JSValue) : ClientM Request :=
  if !transactionHashes.isArray then ClientM.throw (.error "Must specify transaction hashes")
  else rawPostBuild "get_transactions_status"
    (.obj [("transactionHashes", transactionHashes)])

/-- The `.then` of `transactionsStatus` (source lines 966-975). -/
def transactionsStatusNormalize (resp : JSValue) : Except JSError JSValue :=
  if !(resp.getField "status").truthy || !(resp.getField "transactionsInPool").truthy
      || !(resp.getField "transactionsInBlock").truthy
      || !(resp.getField "transactionsUnknown").truthy then
    .error (.error "Missing status of transactions key")
  else match jsToLower (resp.getField "status") with
    | .error e => .error e
    | .ok s =>
      if s ≠ "ok" then .error (.error "Status is not OK")
      else .ok (.obj
        [("transactionsInPool", resp.getField "transactionsInPool"),
         ("transactionsInBlock", resp.getField "transactionsInBlock"),
         ("transactionsUnknown", resp.getField "transactionsUnknown")])

/-- The default-writing steps of `walletSyncData` (source lines
1037-1051): `startHeight`, `startTimestamp`, `blockHashCheckpoints` and
`skipCoinbaseTransactions` are assigned into the caller's options
object when absent (for the checkpoints, when falsy). -/
def walletSyncDataOpts (opts : JSValue) : JSValue :=
  defaultField
    (defaultFieldFalsy
      (defaultField
        (defaultField opts "startHeight" (.num 0))
        "startTimestamp" (.num 0))
      "blockHashCheckpoints" (.arr []))
    "skipCoinbaseTransactions" (.bool false)

/-- `walletSyncData` request building (source lines 1034-1058): the four
defaults are written back into the caller's options object, which is
returned alongside the request. -/
def walletSyncDataBuild (opts0 : JSValue) : ClientM (JSValue × Request) :=
  let opts := if opts0.truthy then opts0 else JSValue.obj []
  let opts5 := walletSyncDataOpts opts
  let body := JSValue.obj
    [("startHeight", opts5.getField "startHeight"),
     ("startTimestamp", opts5.getField "startTimestamp"),
     ("blockHashCheckpoints", opts5.getField "blockHashCheckpoints"),
     ("skipCoinbaseTransactions", opts5.getField "skipCoinbaseTransactions")]
  ClientM.bind (rawPostBuild "getwalletsyncdata" body)
    (fun req => ClientM.pure (opts5, req))

/-- The `.then` of `walletSyncData` (source lines 1059-1064). -/
def walletSyncDataNormalize (resp : JSValue) : Except JSError JSValue :=
  if !(resp.getField "status").truthy || !(resp.getField "items").truthy then
    .error (.error "Missing items or status key")
  else match jsToLower (resp.getField "status") with
    | .error e => .error e
    | .ok s =>
      if s ≠ "ok" then .error (.error "Status is not OK")
      else .ok resp

/-! ### Full operation runs

`xRun args transport c` performs the whole call against a transport
stub: the final client state, the request that was issued (if any), and
the outcome. -/

def blockRun (hash : JSValue) (t : Request → JSValue) (c : MONCoind) :
    MONCoind × Option Request × Except JSError JSValue :=
  runOp (blockBuild hash) blockNormalize t c

def blockCountRun (t : Request → JSValue) (c : MONCoind) :
    MONCoind × Option Request × Except JSError JSValue :=
  runOp blockCountBuild blockCountNormalize t c

def blockHeaderByHashRun (hash : JSValue) (t : Request → JSValue) (c : MONCoind) :
    MONCoind × Option Request × Except JSError JSValue :=
  runOp (blockHeaderByHashBuild hash) blockHeaderByHashNormalize t c

def blockHeaderByHeightRun (height : JSValue) (t : Request → JSValue) (c : MONCoind) :
    MONCoind × Option Request × Except JSError JSValue :=
  runOp (blockHeaderByHeightBuild height) blockHeaderByHeightNormalize t c

def blockShortHeadersRun (height : JSValue) (t : Request → JSValue) (c : MONCoind) :
    MONCoind × Option Request × Except JSError JSValue :=
  runOp (blockShortHeadersBuild height) blockShortHeadersNormalize t c

def blocksDetailedRun (opts : JSValue) (t : Request → JSValue) (c : MONCoind) :
    MONCoind × Option Request × Except JSError JSValue :=
  runOp (ClientM.map Prod.snd (blocksDetailedBuild opts)) idNormalize t c

def blocksLiteRun (opts : JSValue) (t : Request → JSValue) (c : MONCoind) :
    MONCoind × Option Request × Except JSError JSValue :=
  runOp (ClientM.map Prod.snd (blocksLiteBuild opts)) blocksLiteNormalize t c

def blockTemplateRun (walletAddress reserveSize : JSValue) (t : Request → JSValue)
    (c : MONCoind) : MONCoind × Option Request × Except JSError JSValue :=
  runOp (blockTemplateBuild walletAddress reserveSize) postNormalize t c

def feeRun (t : Request → JSValue) (c : MONCoind) :
    MONCoind × Option Request × Except JSError JSValue :=
  runOp feeBuild idNormalize t c

def globalIndexesRun (transactionHash : JSValue) (t : Request → JSValue) (c : MONCoind) :
    MONCoind × Option Request × Except JSError JSValue :=
  runOp (globalIndexesBuild transactionHash) globalIndexesNormalize t c

def globalIndexesForRangeRun (startHeight endHeight : JSValue) (t : Request → JSValue)
    (c : MONCoind) : MONCoind × Option Request × Except JSError JSValue :=
  runOp (globalIndexesForRangeBuild startHeight endHeight) globalIndexesForRangeNormalize t c

def heightRun (t : Request → JSValue) (c : MONCoind) :
    MONCoind × Option Request × Except JSError JSValue :=
  runOp heightBuild idNormalize t c

def infoRun (t : Request → JSValue) (c : MONCoind) :
    MONCoind × Option Request × Except JSError JSValue :=
  runOp infoBuild idNormalize t c

def lastBlockHeaderRun (t : Request → JSValue) (c : MONCoind) :
    MONCoind × Option Request × Except JSError JSValue :=
  runOp lastBlockHeaderBuild lastBlockHeaderNormalize t c

def peersRun (t : Request → JSValue) (c : MONCoind) :
    MONCoind × Option Request × Except JSError JSValue :=
  runOp peersBuild idNormalize t c

def poolChangesRun (tailBlockHash knownTransactionHashes : JSValue) (t : Request → JSValue)
    (c : MONCoind) : MONCoind × Option Request × Except JSError JSValue :=
  runOp (poolChangesBuild tailBlockHash knownTransactionHashes) poolChangesNormalize t c

def randomOutputsRun (amounts mixin : JSValue) (t : Request → JSValue) (c : MONCoind) :
    MONCoind × Option Request × Except JSError JSValue :=
  runOp (randomOutputsBuild amounts mixin) idNormalize t c

def rawBlocksRun (blockHashes blockCount : JSValue) (t : Request → JSValue) (c : MONCoind) :
    MONCoind × Option Request × Except JSError JSValue :=
  runOp (rawBlocksBuild blockHashes blockCount) rawBlocksNormalize t c

def sendRawTransactionRun (transaction : JSValue) (t : Request → JSValue) (c : MONCoind) :
    MONCoind × Option Request × Except JSError JSValue :=
  runOp (sendRawTransactionBuild transaction) idNormalize t c

def submitBlockRun (blockBlob : JSValue) (t : Request → JSValue) (c : MONCoind) :
    MONCoind × Option Request × Except JSError JSValue :=
  runOp (submitBlockBuild blockBlob) postNormalize t c

def transactionRun (hash : JSValue) (t : Request → JSValue) (c : MONCoind) :
    MONCoind × Option Request × Except JSError JSValue :=
  runOp (transactionBuild hash) transactionNormalize t c

def transactionPoolRun (t : Request → JSValue) (c : MONCoind) :
    MONCoind × Option Request × Except JSError JSValue :=
  runOp transactionPoolBuild transactionPoolNormalize t c

def transactionsStatusRun (transactionHashes : JSValue) (t : Request → JSValue)
    (c : MONCoind) : MONCoind × Option Request × Except JSError JSValue :=
  runOp (transactionsStatusBuild transactionHashes) transactionsStatusNormalize t c

def walletSyncDataRun (opts : JSValue) (t : Request → JSValue) (c : MONCoind) :
    MONCoind × Option Request × Except JSError JSValue :=
  runOp (ClientM.map Prod.snd (walletSyncDataBuild opts)) walletSyncDataNormalize t c

/-! ### State-preservation helper lemmas -/

/-- A client computation that leaves the configuration unchanged. -/
def ClientM.Preserves (m : ClientM α) : Prop := ∀ c, (m c).fst = c

theorem preserves_pure (a : α) : (ClientM.pure a).Preserves := fun _ => rfl

theorem preserves_throw (e : JSError) : (ClientM.throw e : ClientM α).Preserves := fun _ => rfl

theorem preserves_read : ClientM.read.Preserves := fun _ => rfl

theorem preserves_bind {m : ClientM α} {f : α → ClientM β}
    (hm : m.Preserves) (hf : ∀ a, (f a).Preserves) : (ClientM.bind m f).Preserves := by
  intro c
  unfold ClientM.bind
  have h := hm c
  rcases hmc : m c with ⟨c2, r⟩
  rw [hmc] at h
  simp only at h
  cases r with
  | ok a => exact (hf a c2).trans h
  | error e => simpa using h

theorem preserves_map {m : ClientM α} (f : α → β) (hm : m.Preserves) :
    (ClientM.map f m).Preserves := by
  intro c
  unfold ClientM.map
  have h := hm c
  rcases hmc : m c with ⟨c2, r⟩
  rw [hmc] at h
  cases r <;> simpa using h

theorem preserves_ite {m1 m2 : ClientM α} (p : Prop) [Decidable p]
    (h1 : m1.Preserves) (h2 : m2.Preserves) : (if p then m1 else m2).Preserves := by
  by_cases hp : p <;> simp [hp, h1, h2]

theorem preserves_rawPostBuild (endpoint : String) (body : JSValue) :
    (rawPostBuild endpoint body).Preserves := by
  unfold rawPostBuild
  exact preserves_ite _ (preserves_throw _)
    (preserves_ite _ (preserves_throw _)
      (preserves_bind preserves_read (fun _ => preserves_pure _)))

theorem preserves_postBuild (method : String) (params : JSValue) :
    (postBuild method params).Preserves := by
  unfold postBuild
  exact preserves_ite _ (preserves_throw _) (preserves_rawPostBuild _ _)

theorem preserves_getBuild (method : String) : (getBuild method).Preserves := by
  unfold getBuild
  exact preserves_ite _ (preserves_throw _)
    (preserves_bind preserves_read (fun _ => preserves_pure _))

theorem runOp_fst {build : ClientM Request} (norm : JSValue → Except JSError JSValue)
    (t : Request → JSValue) (c : MONCoind) (hb : build.Preserves) :
    (runOp build norm t c).fst = c := by
  unfold runOp
  have h := hb c
  rcases hbc : build c with ⟨c2, r⟩
  rw [hbc] at h
  cases r <;> simpa using h

/-! ### Field-access lemmas -/

namespace JSValue

theorem lookupField_setFields_same (fields : List (String × JSValue)) (k : String)
    (v : JSValue) : lookupField (setFields fields k v) k = v := by
  induction fields with
  | nil => simp [setFields, lookupField]
  | cons f rest ih =>
    rcases f with ⟨k2, v2⟩
    by_cases hk : k2 = k
    · simp [setFields, hk, lookupField]
    · simp [setFields, hk, lookupField, ih]

theorem getField_setField_same (o : JSValue) (k : String) (v : JSValue)
    (ho : o.isObj = true) : (o.setField k v).getField k = v := by
  cases o <;> simp [isObj] at ho
  simp [setField, getField, lookupField_setFields_same]

theorem lookupField_setFields_ne (fields : List (String × JSValue)) (k k2 : String)
    (v : JSValue) (hk : k ≠ k2) :
    lookupField (setFields fields k v) k2 = lookupField fields k2 := by
  induction fields with
  | nil => simp [setFields, lookupField, hk]
  | cons f rest ih =>
    rcases f with ⟨k3, v3⟩
    by_cases h3 : k3 = k
    · simp [setFields, h3, lookupField, hk]
    · simp [setFields, h3, lookupField, ih]

theorem getField_setField_ne (o : JSValue) (k k2 : String) (v : JSValue) (hk : k ≠ k2) :
    (o.setField k v).getField k2 = o.getField k2 := by
  cases o <;> simp [setField, getField]
  exact lookupField_setFields_ne _ _ _ _ hk

theorem hasField_deleteField_self (o : JSValue) (k : String) :
    (o.deleteField k).hasField k = false := by
  cases o with
  | obj fields =>
    simp only [deleteField, hasField]
    rw [List.any_eq_false]
    rintro ⟨k2, v⟩ hmem
    have hne := List.of_mem_filter hmem
    simpa using hne
  | _ => simp [deleteField, hasField]

theorem lookupField_filter_ne (fields : List (String × JSValue)) (k k2 : String)
    (hk : k ≠ k2) :
    lookupField (fields.filter (fun f => f.1 != k)) k2 = lookupField fields k2 := by
  induction fields with
  | nil => simp [lookupField]
  | cons f rest ih =>
    rcases f with ⟨k3, v3⟩
    by_cases h3 : k3 = k
    · have hb : ((k3, v3).1 != k) = false := by simpa using h3
      have h32 : k3 ≠ k2 := by rw [h3]; exact hk
      simp [List.filter_cons, hb, lookupField, h32, ih]
    · have hb : ((k3, v3).1 != k) = true := by simpa using h3
      simp [List.filter_cons, hb, lookupField, ih]

theorem getField_deleteField_ne (o : JSValue) (k k2 : String) (hk : k ≠ k2) :
    (o.deleteField k).getField k2 = o.getField k2 := by
  cases o <;> simp [deleteField, getField]
  exact lookupField_filter_ne _ _ _ hk

theorem isObj_truthy (o : JSValue) (ho : o.isObj = true) : o.truthy = true := by
  cases o
  case obj => rfl
  all_goals simp [isObj] at ho

theorem isObj_setField (o : JSValue) (k : String) (v : JSValue) (ho : o.isObj = true) :
    (o.setField k v).isObj = true := by
  cases o <;> simp [isObj] at ho ⊢
  simp [setField, isObj]

end JSValue

/-! ### Claim C1: status-checked operations -/

/-- C1 counterexample: a `get_o_indexes` response with no `status` field
at all.  The claim says every status-checked operation fails with a
StatusError (a thrown `Error` with a rule-specific message) when the
status field is missing, but `globalIndexes` calls
`response.status.toLowerCase()` without a presence check, so a missing
status raises a `TypeError` instead. -/
theorem c1_counterexample :
    globalIndexesNormalize (.obj [("o_indexes", .arr [.num 1, .num 2, .num 3])])
      = .error .typeError := rfl

/-- C1 (amended): for the status-checked operations `globalIndexes`,
`globalIndexesForRange`, `transactionsStatus` and `walletSyncData`: a
response whose status equals `"ok"` case-insensitively and whose
expected keys are present succeeds with exactly the documented
sub-fields; a status equal to `"failed"` fails with the rule-specific
message; a missing status fails with the rule-specific missing-key
message for the latter three operations, but with a `TypeError` (not a
StatusError) for `globalIndexes`. -/
theorem c1_status_checked :
    (∀ (resp : JSValue) (s : String), resp.getField "status" = .str s →
       lowerString s = "ok" →
       globalIndexesNormalize resp = .ok (resp.getField "o_indexes")) ∧
    (∀ (resp : JSValue), resp.getField "status" = .str "failed" →
       globalIndexesNormalize resp = .error (.error "Transaction not found")) ∧
    (∀ (resp : JSValue), resp.getField "status" = .undefined →
       globalIndexesNormalize resp = .error .typeError) ∧
    (∀ (resp : JSValue) (s : String) (xs : List JSValue),
       resp.getField "status" = .str s → lowerString s = "ok" →
       resp.getField "indexes" = .arr xs →
       globalIndexesForRangeNormalize resp = .ok (.arr xs)) ∧
    (∀ (resp : JSValue) (xs : List JSValue),
       resp.getField "status" = .str "failed" → resp.getField "indexes" = .arr xs →
       globalIndexesForRangeNormalize resp = .error (.error "Status is not OK")) ∧
    (∀ (resp : JSValue), resp.getField "status" = .undefined →
       globalIndexesForRangeNormalize resp = .error (.error "Missing indexes or status key")) ∧
    (∀ (resp : JSValue) (s : String) (xs ys zs : List JSValue),
       resp.getField "status" = .str s → lowerString s = "ok" →
       resp.getField "transactionsInPool" = .arr xs →
       resp.getField "transactionsInBlock" = .arr ys →
       resp.getField "transactionsUnknown" = .arr zs →
       transactionsStatusNormalize resp = .ok (.obj
         [("transactionsInPool", .arr xs), ("transactionsInBlock", .arr ys),
          ("transactionsUnknown", .arr zs)])) ∧
    (∀ (resp : JSValue) (xs ys zs : List JSValue),
       resp.getField "status" = .str "failed" →
       resp.getField "transactionsInPool" = .arr xs →
       resp.getField "transactionsInBlock" = .arr ys →
       resp.getField "transactionsUnknown" = .arr zs →
       transactionsStatusNormalize resp = .error (.error "Status is not OK")) ∧
    (∀ (resp : JSValue), resp.getField "status" = .undefined →
       transactionsStatusNormalize resp = .error (.error "Missing status of transactions key")) ∧
    (∀ (resp : JSValue) (s : String) (xs : List JSValue),
       resp.getField "status" = .str s → lowerString s = "ok" →
       resp.getField "items" = .arr xs →
       walletSyncDataNormalize resp = .ok resp) ∧
    (∀ (resp : JSValue) (xs : List JSValue),
       resp.getField "status" = .str "failed" → resp.getField "items" = .arr xs →
       walletSyncDataNormalize resp = .error (.error "Status is not OK")) ∧
    (∀ (resp : JSValue), resp.getField "status" = .undefined →
       walletSyncDataNormalize resp = .error (.error "Missing items or status key")) := by
  refine ⟨?_, ?_, ?_, ?_, ?_, ?_, ?_, ?_, ?_, ?_, ?_, ?_⟩
  · intro resp s hst hok
    simp [globalIndexesNormalize, hst, jsToLower, hok]
  · intro resp hst
    simp [globalIndexesNormalize, hst, jsToLower]
    decide
  · intro resp hst
    simp [globalIndexesNormalize, hst, jsToLower]
  · intro resp s xs hst hok hidx
    have hs : s ≠ "" := by rintro rfl; exact absurd hok (by decide)
    simp [globalIndexesForRangeNormalize, hst, hidx, JSValue.truthy, hs, jsToLower, hok]
  · intro resp xs hst hidx
    simp [globalIndexesForRangeNormalize, hst, hidx, JSValue.truthy, jsToLower]
    decide
  · intro resp hst
    simp [globalIndexesForRangeNormalize, hst, JSValue.truthy]
  · intro resp s xs ys zs hst hok hp hb hu
    have hs : s ≠ "" := by rintro rfl; exact absurd hok (by decide)
    simp [transactionsStatusNormalize, hst, hp, hb, hu, JSValue.truthy, hs, jsToLower, hok]
  · intro resp xs ys zs hst hp hb hu
    simp [transactionsStatusNormalize, hst, hp, hb, hu, JSValue.truthy, jsToLower]
    decide
  · intro resp hst
    simp [transactionsStatusNormalize, hst, JSValue.truthy]
  · intro resp s xs hst hok hit
    have hs : s ≠ "" := by rintro rfl; exact absurd hok (by decide)
    simp [walletSyncDataNormalize, hst, hit, JSValue.truthy, hs, jsToLower, hok]
  · intro resp xs hst hit
    simp [walletSyncDataNormalize, hst, hit, JSValue.truthy, jsToLower]
    decide
  · intro resp hst
    simp [walletSyncDataNormalize, hst, JSValue.truthy]

/-- C1 witness: every branch of the amended statement instantiated on a
concrete response. -/
theorem c1_status_checked_witness :
    globalIndexesNormalize
        (.obj [("status", .str "OK"), ("o_indexes", .arr [.num 1, .num 2, .num 3])])
      = .ok (.arr [.num 1, .num 2, .num 3]) ∧
    globalIndexesNormalize (.obj [("status", .str "failed")])
      = .error (.error "Transaction not found") ∧
    globalIndexesNormalize (.obj [("o_indexes", .arr [.num 1])])
      = .error .typeError ∧
    globalIndexesForRangeNormalize
        (.obj [("status", .str "OK"), ("indexes", .arr [.num 4])])
      = .ok (.arr [.num 4]) ∧
    globalIndexesForRangeNormalize
        (.obj [("status", .str "failed"), ("indexes", .arr [.num 4])])
      = .error (.error "Status is not OK") ∧
    globalIndexesForRangeNormalize (.obj [("indexes", .arr [.num 4])])
      = .error (.error "Missing indexes or status key") ∧
    transactionsStatusNormalize
        (.obj [("status", .str "Ok"), ("transactionsInPool", .arr [.str "a"]),
               ("transactionsInBlock", .arr [.str "b"]),
               ("transactionsUnknown", .arr [.str "c"])])
      = .ok (.obj [("transactionsInPool", .arr [.str "a"]),
                   ("transactionsInBlock", .arr [.str "b"]),
                   ("transactionsUnknown", .arr [.str "c"])]) ∧
    transactionsStatusNormalize
        (.obj [("status", .str "failed"), ("transactionsInPool", .arr [.str "a"]),
               ("transactionsInBlock", .arr [.str "b"]),
               ("transactionsUnknown", .arr [.str "c"])])
      = .error (.error "Status is not OK") ∧
    transactionsStatusNormalize
        (.obj [("transactionsInPool", .arr [.str "a"]),
               ("transactionsInBlock", .arr [.str "b"]),
               ("transactionsUnknown", .arr [.str "c"])])
      = .error (.error "Missing status of transactions key") ∧
    walletSyncDataNormalize (.obj [("status", .str "OK"), ("items", .arr [.str "i"])])
      = .ok (.obj [("status", .str "OK"), ("items", .arr [.str "i"])]) ∧
    walletSyncDataNormalize (.obj [("status", .str "failed"), ("items", .arr [.str "i"])])
      = .error (.error "Status is not OK") ∧
    walletSyncDataNormalize (.obj [("items", .arr [.str "i"])])
      = .error (.error "Missing items or status key") := by
  obtain ⟨h1, h2, h3, h4, h5, h6, h7, h8, h9, h10, h11, h12⟩ := c1_status_checked
  exact ⟨h1 _ "OK" rfl (by decide), h2 _ rfl, h3 _ rfl,
    h4 _ "OK" _ rfl (by decide) rfl, h5 _ _ rfl rfl, h6 _ rfl,
    h7 _ "Ok" _ _ _ rfl (by decide) rfl rfl rfl, h8 _ _ _ _ rfl rfl rfl rfl, h9 _ rfl,
    h10 _ "OK" _ rfl (by decide) rfl, h11 _ _ rfl rfl, h12 _ rfl⟩

/-! ### Claim C2: block-header extraction -/

/-- A JSON-RPC result envelope carrying a `block_header` sub-field, as
the daemon's `getblockheaderbyhash` / `getblockheaderbyheight` return
it. -/
def blockHeaderEnvelope : JSValue :=
  .obj [("result", .obj [("block_header", .obj [("height", .num 5)])])]

/-- C2: the claim says both header operations return exactly the
`block_header` sub-field of the result envelope.  `blockHeaderByHeight`
does, but `blockHeaderByHash` reads the misspelled field `block_head`
(source line 201), so on a daemon response carrying `block_header` it
resolves with `undefined` instead of the header — contradicting the
method's own documentation, which promises the block header. -/
theorem c2_block_head_typo :
    blockHeaderByHashNormalize blockHeaderEnvelope = .ok .undefined ∧
    blockHeaderByHeightNormalize blockHeaderEnvelope
      = .ok (.obj [("height", .num 5)]) := ⟨rfl, rfl⟩

/-! ### Claim C3: JSON-RPC envelope error handling -/

/-- C3 counterexample: an envelope that carries an `error` field whose
value is `null`.  The claim says a call whose envelope carries an
`error` field fails with that error's message, but `_post` tests the
field for truthiness, so a `null` error resolves with the `result`
field instead. -/
theorem c3_counterexample :
    JSValue.hasField (.obj [("error", .null), ("result", .num 42)]) "error" = true ∧
    postNormalize (.obj [("error", .null), ("result", .num 42)]) = .ok (.num 42) :=
  ⟨rfl, rfl⟩

/-- C3 (amended): for every operation dispatched through `_post`: if the
returned envelope carries a truthy `error` field, the call fails with
that error's message; otherwise (including an `error` field that is
present but `null` or otherwise falsy) the call succeeds with the
envelope's `result` field. -/
theorem c3_post_envelope (resp : JSValue) :
    ((resp.getField "error").truthy = true →
       postNormalize resp =
         .error (.error (newErrorMessage ((resp.getField "error").getField "message")))) ∧
    ((resp.getField "error").truthy = false →
       postNormalize resp = .ok (resp.getField "result")) := by
  constructor <;> intro h <;> simp [postNormalize, h]

/-- C3 witness: both branches of the amended statement on concrete
envelopes. -/
theorem c3_post_envelope_witness :
    postNormalize (.obj [("error", .obj [("message", .str "boom")])])
      = .error (.error "boom") ∧
    postNormalize (.obj [("result", .num 7)]) = .ok (.num 7) :=
  ⟨(c3_post_envelope _).1 rfl, (c3_post_envelope _).2 rfl⟩

/-! ### Claim C8: empty-key stripping in `transaction` -/

/-- C8 counterexample: a result whose `tx` object carries the
empty-string key with the falsy value `0`.  The claim says the
normalized `tx` never contains the empty-string key, but the source
guards the deletion with `response.tx['']` truthiness, so a falsy value
under the empty key survives unchanged. -/
theorem c8_counterexample :
    (JSValue.getField
        (.obj [("tx", .obj [("", .num 0), ("amount", .num 5)]), ("status", .str "OK")])
        "tx").hasField "" = true ∧
    stripEmptyTxKey
        (.obj [("tx", .obj [("", .num 0), ("amount", .num 5)]), ("status", .str "OK")])
      = .ok (.obj [("tx", .obj [("", .num 0), ("amount", .num 5)]), ("status", .str "OK")]) :=
  ⟨rfl, rfl⟩

/-- C8 (amended): for the `transaction` operation: if the result's `tx`
object carries the empty-string key with a truthy value, the key is
deleted — the returned `tx` no longer has it, every other key of `tx`
keeps its value, and every other top-level field of the result is
unchanged.  In every other case (no `tx`, no empty-string key, or an
empty-string key with a falsy value) the result is returned entirely
unchanged. -/
theorem c8_empty_key_stripping (resp tx : JSValue) (htx : resp.getField "tx" = tx) :
    (tx.truthy = true → (tx.getField "").truthy = true →
       stripEmptyTxKey resp = .ok (resp.setField "tx" (tx.deleteField "")) ∧
       (tx.deleteField "").hasField "" = false ∧
       (∀ k, k ≠ "" → (tx.deleteField "").getField k = tx.getField k) ∧
       (∀ k, k ≠ "tx" → (resp.setField "tx" (tx.deleteField "")).getField k = resp.getField k) ∧
       (resp.setField "tx" (tx.deleteField "")).getField "tx" = tx.deleteField "") ∧
    ((tx.truthy && (tx.getField "").truthy) = false →
       stripEmptyTxKey resp = .ok resp) ∧
    (∀ (env : JSValue), (env.getField "error").truthy = false →
       env.getField "result" = resp → transactionNormalize env = stripEmptyTxKey resp) := by
  refine ⟨?_, ?_, ?_⟩
  · intro ht he
    have hobj : resp.isObj = true := by
      cases resp
      case obj => rfl
      all_goals simp only [JSValue.getField] at htx
      all_goals rw [← htx] at ht
      all_goals simp [JSValue.truthy] at ht
    refine ⟨by simp [stripEmptyTxKey, htx, ht, he], JSValue.hasField_deleteField_self _ _,
      fun k hk => JSValue.getField_deleteField_ne _ _ _ (Ne.symm hk),
      fun k hk => JSValue.getField_setField_ne _ _ _ _ (Ne.symm hk),
      JSValue.getField_setField_same _ _ _ hobj⟩
  · intro hcond
    simp [stripEmptyTxKey, htx, hcond]
  · intro env herr hres
    simp [transactionNormalize, postNormalize, herr, hres]

/-- C8 witness: both branches and the envelope link on concrete
responses. -/
theorem c8_empty_key_stripping_witness :
    stripEmptyTxKey (.obj [("tx", .obj [("", .str "x"), ("amount", .num 5)])])
      = .ok (.obj [("tx", .obj [("amount", .num 5)])]) ∧
    stripEmptyTxKey (.obj [("tx", .obj [("amount", .num 5)])])
      = .ok (.obj [("tx", .obj [("amount", .num 5)])]) ∧
    transactionNormalize
        (.obj [("result", .obj [("tx", .obj [("amount", .num 5)])])])
      = stripEmptyTxKey (.obj [("tx", .obj [("amount", .num 5)])]) := by
  have hA := (c8_empty_key_stripping (.obj [("tx", .obj [("", .str "x"), ("amount", .num 5)])])
    (.obj [("", .str "x"), ("amount", .num 5)]) rfl).1 rfl rfl
  have hB := (c8_empty_key_stripping (.obj [("tx", .obj [("amount", .num 5)])])
    (.obj [("amount", .num 5)]) rfl).2.1 rfl
  have hC := (c8_empty_key_stripping (.obj [("tx", .obj [("amount", .num 5)])])
    (.obj [("amount", .num 5)]) rfl).2.2
    (.obj [("result", .obj [("tx", .obj [("amount", .num 5)])])]) rfl rfl
  exact ⟨hA.1, hB, hC⟩

/-! ### Claim C5: binary-to-hex conversion in `blocksLite` -/

/-- A lowercase hexadecimal digit character. -/
def isLowerHexChar (ch : Char) : Bool :=
  (decide ('0' ≤ ch) && decide (ch ≤ '9')) || (decide ('a' ≤ ch) && decide (ch ≤ 'f'))

/-- The byte value of a lowercase hexadecimal digit. -/
def hexCharVal (ch : Char) : Nat :=
  if ch ≤ '9' then ch.toNat - 48 else ch.toNat - 87

/-- Decode a lowercase-hex character list back into bytes, two
characters per byte. -/
def hexDecode : List Char → Option (List Nat)
  | [] => some []
  | hi :: lo :: rest =>
    if isLowerHexChar hi && isLowerHexChar lo then
      (hexDecode rest).map (fun t => (16 * hexCharVal hi + hexCharVal lo) :: t)
    else none
  | [_] => none

theorem hexDigit_isLower (n : Nat) (h : n < 16) : isLowerHexChar (hexDigit n) = true := by
  interval_cases n <;> decide

theorem hexCharVal_hexDigit (n : Nat) (h : n < 16) : hexCharVal (hexDigit n) = n := by
  interval_cases n <;> decide

theorem hexDecode_bytesToHexChars (bytes : List Nat) (h : ∀ b ∈ bytes, b < 256) :
    hexDecode (bytesToHexChars bytes) = some bytes := by
  induction bytes with
  | nil => rfl
  | cons b rest ih =>
    have hb : b < 256 := h b (List.mem_cons_self _ _)
    have hrest : ∀ x ∈ rest, x < 256 := fun x hx => h x (List.mem_cons_of_mem _ hx)
    have hmod : b % 256 = b := Nat.mod_eq_of_lt hb
    have hhi : b / 16 < 16 := by omega
    have hlo : b % 16 < 16 := by omega
    simp only [bytesToHexChars, hmod]
    simp [hexDecode, hexDigit_isLower _ hhi, hexDigit_isLower _ hlo,
      hexCharVal_hexDigit _ hhi, hexCharVal_hexDigit _ hlo, ih hrest]
    omega

theorem bytesToHexChars_lower (bytes : List Nat) :
    ∀ ch ∈ bytesToHexChars bytes, isLowerHexChar ch = true := by
  induction bytes with
  | nil => simp [bytesToHexChars]
  | cons b rest ih =>
    intro ch hch
    simp only [bytesToHexChars, List.mem_cons] at hch
    rcases hch with h1 | h2 | h3
    · exact h1 ▸ hexDigit_isLower _ (by omega)
    · exact h2 ▸ hexDigit_isLower _ (by omega)
    · exact ih ch h3

theorem bytesToHexChars_length (bytes : List Nat) :
    (bytesToHexChars bytes).length = 2 * bytes.length := by
  induction bytes with
  | nil => rfl
  | cons b rest ih =>
    simp only [bytesToHexChars, List.length_cons, ih]
    omega

/-- A concrete `queryblockslite` response whose single item carries the
byte array `[0, 255, 16]`. -/
def liteBytesResp : JSValue :=
  .obj [("items", .arr [.obj
      [("blockShortInfo.block", .arr [.num 0, .num 255, .num 16]),
       ("blockShortInfo.blockId", .str "bid"),
       ("blockShortInfo.txPrefixes", .arr [])]]),
    ("status", .str "OK")]

/-- C5: the conversion `blocksLite` applies to each item's block byte
array produces the lowercase hexadecimal encoding of the bytes in
order: it decodes back to exactly the input bytes, every output
character is a lowercase hex digit, the output has two characters per
byte, and on the byte array `[0, 255, 16]` the output string is
`"00ff10"` (shown both for the raw conversion and through
`blocksLite`'s response handler). -/
theorem c5_binary_to_hex (bytes : List Nat) (h : ∀ b ∈ bytes, b < 256) :
    bufferToHex [0, 255, 16] = "00ff10" ∧
    blocksLiteNormalize liteBytesResp = .ok
      (.obj [("items", .arr [.obj
          [("block", .str "00ff10"), ("hash", .str "bid"), ("transactions", .arr [])]]),
        ("status", .str "OK")]) ∧
    hexDecode (bufferToHex bytes).data = some bytes ∧
    (∀ ch ∈ (bufferToHex bytes).data, isLowerHexChar ch = true) ∧
    (bufferToHex bytes).data.length = 2 * bytes.length := by
  refine ⟨rfl, rfl, ?_, ?_, ?_⟩
  · exact hexDecode_bytesToHexChars bytes h
  · exact bytesToHexChars_lower bytes
  · exact bytesToHexChars_length bytes

/-- C5 witness: the general statement instantiated on the byte array
`[0, 255, 16]`. -/
theorem c5_binary_to_hex_witness :
    hexDecode (bufferToHex [0, 255, 16]).data = some [0, 255, 16] ∧
    (bufferToHex [0, 255, 16]).data.length = 2 * 3 :=
  ⟨(c5_binary_to_hex [0, 255, 16] (by decide)).2.2.1,
   (c5_binary_to_hex [0, 255, 16] (by decide)).2.2.2.2⟩

/-! ### Claim C6: key-name rewriting -/

/-- C6: each key-rewriting operation exposes the value stored under a
literal dotted field name under the documented plain name, and the
dotted key is absent from the rebuilt object: `poolChanges` rewrites
`transactionPrefixInfo.txHash` / `transactionPrefixInfo.txPrefix` to
`hash` / `prefix`, `blocksLite` additionally rewrites
`blockShortInfo.blockId` / `blockShortInfo.block` /
`blockShortInfo.txPrefixes` to `hash` / `block` / `transactions`, and
`rawBlocks` rewrites the four `response.`-prefixed names to their plain
forms. -/
theorem c6_key_rewriting :
    (∀ (hv pv d b st : JSValue),
       poolChangesNormalize (.obj
           [("addedTxs", .arr [.obj [("transactionPrefixInfo.txHash", hv),
                                     ("transactionPrefixInfo.txPrefix", pv)]]),
            ("deletedTxsIds", d), ("isTailBlockActual", b), ("status", st)])
         = .ok (.obj
           [("addedTxs", .arr [.obj [("hash", hv), ("prefix", pv)]]),
            ("deletedTxsIds", d), ("isTailBlockActual", b), ("status", st)]) ∧
       (JSValue.obj [("hash", hv), ("prefix", pv)]).getField "hash" = hv ∧
       (JSValue.obj [("hash", hv), ("prefix", pv)]).getField "prefix" = pv ∧
       (JSValue.obj [("hash", hv), ("prefix", pv)]).hasField "transactionPrefixInfo.txHash"
         = false ∧
       (JSValue.obj [("hash", hv), ("prefix", pv)]).hasField "transactionPrefixInfo.txPrefix"
         = false) ∧
    (∀ (bid th tp st : JSValue),
       blocksLiteNormalize (.obj
           [("items", .arr [.obj
               [("blockShortInfo.block", .arr []),
                ("blockShortInfo.blockId", bid),
                ("blockShortInfo.txPrefixes",
                  .arr [.obj [("transactionPrefixInfo.txHash", th),
                              ("transactionPrefixInfo.txPrefix", tp)]])]]),
            ("status", st)])
         = .ok (.obj
           [("items", .arr [.obj
               [("block", .str ""), ("hash", bid),
                ("transactions", .arr [.obj [("hash", th), ("prefix", tp)]])]]),
            ("status", st)]) ∧
       (JSValue.obj [("block", .str ""), ("hash", bid),
          ("transactions", .arr [.obj [("hash", th), ("prefix", tp)]])]).getField "hash"
         = bid ∧
       (JSValue.obj [("block", .str ""), ("hash", bid),
          ("transactions", .arr [.obj [("hash", th), ("prefix", tp)]])]).hasField
            "blockShortInfo.blockId" = false ∧
       (JSValue.obj [("block", .str ""), ("hash", bid),
          ("transactions", .arr [.obj [("hash", th), ("prefix", tp)]])]).hasField
            "blockShortInfo.block" = false ∧
       (JSValue.obj [("block", .str ""), ("hash", bid),
          ("transactions", .arr [.obj [("hash", th), ("prefix", tp)]])]).hasField
            "blockShortInfo.txPrefixes" = false) ∧
    (∀ (bl ch sh st : JSValue),
       rawBlocksNormalize (.obj
           [("response.blocks", bl), ("response.current_height", ch),
            ("response.start_height", sh), ("response.status", st)])
         = .ok (.obj
           [("blocks", bl), ("current_height", ch),
            ("start_height", sh), ("status", st)]) ∧
       (JSValue.obj [("blocks", bl), ("current_height", ch),
          ("start_height", sh), ("status", st)]).getField "blocks" = bl ∧
       (JSValue.obj [("blocks", bl), ("current_height", ch),
          ("start_height", sh), ("status", st)]).hasField "response.blocks" = false ∧
       (JSValue.obj [("blocks", bl), ("current_height", ch),
          ("start_height", sh), ("status", st)]).hasField "response.status" = false) :=
  ⟨fun _ _ _ _ _ => ⟨rfl, rfl, rfl, rfl, rfl⟩,
   fun _ _ _ _ => ⟨rfl, rfl, rfl, rfl, rfl⟩,
   fun _ _ _ _ => ⟨rfl, rfl, rfl, rfl⟩⟩

/-! ### Claim C7: array reshaping -/

/-- The content of one well-formed `queryblockslite` item, used to
quantify over item lists of arbitrary length. -/
structure LiteEntry where
  blockId : JSValue
  blockBytes : List Nat
  txs : List JSValue

/-- The raw daemon shape of a `queryblockslite` item built from a
`LiteEntry`. -/
def mkLiteItem (it : LiteEntry) : JSValue :=
  .obj [("blockShortInfo.block", .arr (it.blockBytes.map (fun b => .num (Int.ofNat b)))),
        ("blockShortInfo.blockId", it.blockId),
        ("blockShortInfo.txPrefixes", .arr it.txs)]

/-- The normalized shape `blocksLite` produces for that item. -/
def liteExpected (it : LiteEntry) : JSValue :=
  .obj [("block", .str (bufferToHex (it.blockBytes.map (fun b => b % 256)))),
        ("hash", it.blockId),
        ("transactions", .arr (it.txs.map reshapeTx))]

theorem jsToByte_ofNat (b : Nat) : jsToByte (.num (b : Int)) = b % 256 := by
  simp [jsToByte]
  omega

theorem blocksLiteItem_mk (it : LiteEntry) :
    blocksLiteItem (mkLiteItem it) = .ok (liteExpected it) := by
  simp [blocksLiteItem, mkLiteItem, liteExpected, jsAsArray, bufferFrom,
    JSValue.getField, JSValue.lookupField, List.map_map, Function.comp_def, jsToByte_ofNat]

theorem mapOrThrow_blocksLiteItem (entries : List LiteEntry) :
    mapOrThrow blocksLiteItem (entries.map mkLiteItem) = .ok (entries.map liteExpected) := by
  induction entries with
  | nil => rfl
  | cons it rest ih => simp [mapOrThrow, blocksLiteItem_mk, ih]

/-- C7: the array reshaping of `poolChanges` (on `addedTxs`) and
`blocksLite` (on `items`) is a per-entry map: N input entries produce
exactly N output objects, and the i-th output is built from the i-th
input entry, pairing its dotted hash field with its dotted prefix
field, in the input order. -/
theorem c7_array_reshaping :
    (∀ (resp : JSValue) (txs : List JSValue), resp.getField "addedTxs" = .arr txs →
       poolChangesNormalize resp = .ok (resp.setField "addedTxs" (.arr (txs.map reshapeTx))) ∧
       (txs.map reshapeTx).length = txs.length ∧
       (∀ (tx : JSValue), reshapeTx tx = .obj
         [("hash", tx.getField "transactionPrefixInfo.txHash"),
          ("prefix", tx.getField "transactionPrefixInfo.txPrefix")]) ∧
       (∀ (i : Nat) (hi : i < txs.length),
         (txs.map reshapeTx).get ⟨i, by simpa using hi⟩ = reshapeTx (txs.get ⟨i, hi⟩))) ∧
    (∀ (resp : JSValue) (entries : List LiteEntry),
       resp.getField "items" = .arr (entries.map mkLiteItem) →
       blocksLiteNormalize resp
         = .ok (resp.setField "items" (.arr (entries.map liteExpected))) ∧
       (entries.map liteExpected).length = entries.length ∧
       (∀ (i : Nat) (hi : i < entries.length),
         (entries.map liteExpected).get ⟨i, by simpa using hi⟩
           = liteExpected (entries.get ⟨i, hi⟩))) := by
  constructor
  · intro resp txs hadd
    refine ⟨?_, by simp, fun tx => rfl, fun i hi => by simp⟩
    simp [poolChangesNormalize, hadd, jsAsArray]
  · intro resp entries hit
    refine ⟨?_, by simp, fun i hi => by simp⟩
    simp [blocksLiteNormalize, hit, jsAsArray, mapOrThrow_blocksLiteItem]

/-- C7 witness: both reshaping rules instantiated on concrete input
arrays of length two and one. -/
theorem c7_array_reshaping_witness :
    poolChangesNormalize (.obj
        [("addedTxs", .arr
           [.obj [("transactionPrefixInfo.txHash", .str "h1"),
                  ("transactionPrefixInfo.txPrefix", .str "p1")],
            .obj [("transactionPrefixInfo.txHash", .str "h2"),
                  ("transactionPrefixInfo.txPrefix", .str "p2")]])])
      = .ok (.obj
        [("addedTxs", .arr
           [.obj [("hash", .str "h1"), ("prefix", .str "p1")],
            .obj [("hash", .str "h2"), ("prefix", .str "p2")]])]) ∧
    blocksLiteNormalize (.obj
        [("items", .arr [mkLiteItem ⟨.str "bid", [0, 255, 16], [.obj
           [("transactionPrefixInfo.txHash", .str "h"),
            ("transactionPrefixInfo.txPrefix", .str "p")]]⟩])])
      = .ok (.obj
        [("items", .arr [.obj
           [("block", .str "00ff10"), ("hash", .str "bid"),
            ("transactions", .arr [.obj [("hash", .str "h"), ("prefix", .str "p")]])]])]) := by
  have hA := (c7_array_reshaping.1 (.obj
      [("addedTxs", .arr
         [.obj [("transactionPrefixInfo.txHash", .str "h1"),
                ("transactionPrefixInfo.txPrefix", .str "p1")],
          .obj [("transactionPrefixInfo.txHash", .str "h2"),
                ("transactionPrefixInfo.txPrefix", .str "p2")]])])
    _ rfl).1
  have hB := (c7_array_reshaping.2 (.obj
      [("items", .arr [mkLiteItem ⟨.str "bid", [0, 255, 16], [.obj
         [("transactionPrefixInfo.txHash", .str "h"),
          ("transactionPrefixInfo.txPrefix", .str "p")]]⟩])])
    [⟨.str "bid", [0, 255, 16], [.obj
       [("transactionPrefixInfo.txHash", .str "h"),
        ("transactionPrefixInfo.txPrefix", .str "p")]]⟩] rfl).1
  exact ⟨hA, hB⟩

/-! ### Claim C4: argument validation before any transport call -/

/-- C4: the operations with required arguments reject bad arguments with
the declared `Error` before the transport is ever invoked: the issued
request component is `none`.  Shown for `blocksDetailed` (missing or
non-array `blockHashes`, covering an absent options object as well) and
`randomOutputs` (non-array `amounts`, missing `mixin`, and a `mixin`
whose `parseInt` is `NaN`). -/
theorem c4_argument_validation :
    (∀ (opts : JSValue) (t : Request → JSValue) (c : MONCoind),
       (opts.getField "blockHashes").isArray = false →
       blocksDetailedRun opts t c
         = (c, none, .error (.error "must supply an array of block hashes"))) ∧
    (∀ (amounts mixin : JSValue) (t : Request → JSValue) (c : MONCoind),
       amounts.isArray = false →
       randomOutputsRun amounts mixin t c
         = (c, none, .error (.error "must supply an array of amounts"))) ∧
    (∀ (amounts mixin : JSValue) (t : Request → JSValue) (c : MONCoind),
       amounts.isArray = true → mixin.isUndefined = true →
       randomOutputsRun amounts mixin t c
         = (c, none, .error (.error "must supply a mixin value"))) ∧
    (∀ (amounts mixin : JSValue) (t : Request → JSValue) (c : MONCoind),
       amounts.isArray = true → mixin.isUndefined = false → parseIntJS mixin = none →
       randomOutputsRun amounts mixin t c
         = (c, none, .error (.error "must supply a valid mixin value"))) := by
  refine ⟨?_, ?_, ?_, ?_⟩
  · intro opts t c h
    have hb : ClientM.map Prod.snd (blocksDetailedBuild opts) c
        = (c, .error (.error "must supply an array of block hashes")) := by
      by_cases hT : opts.truthy
      · simp [ClientM.map, blocksDetailedBuild, hT, h, ClientM.throw]
      · simp [ClientM.map, blocksDetailedBuild, hT, ClientM.throw,
          JSValue.getField, JSValue.lookupField, JSValue.isArray]
    simp [blocksDetailedRun, runOp, hb]
  · intro amounts mixin t c h
    have hb : randomOutputsBuild amounts mixin c
        = (c, .error (.error "must supply an array of amounts")) := by
      simp [randomOutputsBuild, h, ClientM.throw]
    simp [randomOutputsRun, runOp, hb]
  · intro amounts mixin t c ha hm
    have hb : randomOutputsBuild amounts mixin c
        = (c, .error (.error "must supply a mixin value")) := by
      simp [randomOutputsBuild, ha, hm, ClientM.throw]
    simp [randomOutputsRun, runOp, hb]
  · intro amounts mixin t c ha hm hp
    have hb : randomOutputsBuild amounts mixin c
        = (c, .error (.error "must supply a valid mixin value")) := by
      simp [randomOutputsBuild, ha, hm, hp, ClientM.throw]
    simp [randomOutputsRun, runOp, hb]

/-- C4 witness: all four rejection branches on concrete bad arguments
against the default-configured client; in each case no request is
issued. -/
theorem c4_argument_validation_witness :
    blocksDetailedRun (.obj [("blockHashes", .num 1)]) (fun _ => .undefined)
        (MONCoind.make .undefined)
      = (MONCoind.make .undefined, none,
         .error (.error "must supply an array of block hashes")) ∧
    randomOutputsRun (.num 0) (.num 3) (fun _ => .undefined) (MONCoind.make .undefined)
      = (MONCoind.make .undefined, none,
         .error (.error "must supply an array of amounts")) ∧
    randomOutputsRun (.arr [.num 100]) .undefined (fun _ => .undefined)
        (MONCoind.make .undefined)
      = (MONCoind.make .undefined, none,
         .error (.error "must supply a mixin value")) ∧
    randomOutputsRun (.arr [.num 100]) (.str "abc") (fun _ => .undefined)
        (MONCoind.make .undefined)
      = (MONCoind.make .undefined, none,
         .error (.error "must supply a valid mixin value")) := by
  obtain ⟨h1, h2, h3, h4⟩ := c4_argument_validation
  exact ⟨h1 _ _ _ rfl, h2 _ _ _ _ rfl, h3 _ _ _ _ rfl rfl, h4 _ _ _ _ rfl rfl rfl⟩

/-! ### Claim C10: mutation of the caller's options object -/

theorem rawPostBuild_obj_ok (ep : String) (fields : List (String × JSValue)) (c : MONCoind)
    (hep : ep.length ≠ 0) :
    rawPostBuild ep (.obj fields) c = (c, .ok
      { httpMethod := "POST", uri := mkUri c ep, body := some (.obj fields),
        timeout := c.timeout, forever := c.keepAlive, userAgent := c.userAgent }) := by
  simp [rawPostBuild, hep, JSValue.isUndefined, ClientM.bind, ClientM.read, ClientM.pure]

theorem getField_defaultField_ne (o : JSValue) (k k2 : String) (v : JSValue) (hk : k2 ≠ k) :
    (defaultField o k2 v).getField k = o.getField k := by
  unfold defaultField
  split
  · exact JSValue.getField_setField_ne _ _ _ _ hk
  · rfl

theorem getField_defaultFieldFalsy_ne (o : JSValue) (k k2 : String) (v : JSValue)
    (hk : k2 ≠ k) : (defaultFieldFalsy o k2 v).getField k = o.getField k := by
  unfold defaultFieldFalsy
  split
  · exact JSValue.getField_setField_ne _ _ _ _ hk
  · rfl

theorem isObj_defaultField (o : JSValue) (k : String) (v : JSValue)
    (hobj : o.isObj = true) : (defaultField o k v).isObj = true := by
  unfold defaultField
  split
  · exact JSValue.isObj_setField _ _ _ hobj
  · exact hobj

theorem isObj_defaultFieldFalsy (o : JSValue) (k : String) (v : JSValue)
    (hobj : o.isObj = true) : (defaultFieldFalsy o k v).isObj = true := by
  unfold defaultFieldFalsy
  split
  · exact JSValue.isObj_setField _ _ _ hobj
  · exact hobj

theorem getField_defaultField_absent (o : JSValue) (k : String) (v : JSValue)
    (hobj : o.isObj = true) (h : (o.getField k).isUndefined = true) :
    (defaultField o k v).getField k = v := by
  unfold defaultField
  simp only [h, if_true]
  exact JSValue.getField_setField_same _ _ _ hobj

theorem getField_defaultFieldFalsy_falsy (o : JSValue) (k : String) (v : JSValue)
    (hobj : o.isObj = true) (h : (o.getField k).truthy = false) :
    (defaultFieldFalsy o k v).getField k = v := by
  unfold defaultFieldFalsy
  simp only [h, Bool.not_false, if_true]
  exact JSValue.getField_setField_same _ _ _ hobj

theorem bdOpts_timestamp (opts : JSValue) (hobj : opts.isObj = true)
    (h : (opts.getField "timestamp").isUndefined = true) :
    (blocksDetailedOpts opts).getField "timestamp" = .num 0 := by
  unfold blocksDetailedOpts
  rw [getField_defaultField_ne _ _ _ _ (by decide)]
  exact getField_defaultField_absent _ _ _ hobj h

theorem bdOpts_blockCount (opts : JSValue) (hobj : opts.isObj = true)
    (h : (opts.getField "blockCount").isUndefined = true) :
    (blocksDetailedOpts opts).getField "blockCount" = .num 100 := by
  unfold blocksDetailedOpts
  refine getField_defaultField_absent _ _ _ (isObj_defaultField _ _ _ hobj) ?_
  rw [getField_defaultField_ne _ _ _ _ (by decide)]
  exact h

theorem wsdOpts_startHeight (opts : JSValue) (hobj : opts.isObj = true)
    (h : (opts.getField "startHeight").isUndefined = true) :
    (walletSyncDataOpts opts).getField "startHeight" = .num 0 := by
  unfold walletSyncDataOpts
  rw [getField_defaultField_ne _ _ _ _ (by decide),
    getField_defaultFieldFalsy_ne _ _ _ _ (by decide),
    getField_defaultField_ne _ _ _ _ (by decide)]
  exact getField_defaultField_absent _ _ _ hobj h

theorem wsdOpts_startTimestamp (opts : JSValue) (hobj : opts.isObj = true)
    (h : (opts.getField "startTimestamp").isUndefined = true) :
    (walletSyncDataOpts opts).getField "startTimestamp" = .num 0 := by
  unfold walletSyncDataOpts
  rw [getField_defaultField_ne _ _ _ _ (by decide),
    getField_defaultFieldFalsy_ne _ _ _ _ (by decide)]
  refine getField_defaultField_absent _ _ _ (isObj_defaultField _ _ _ hobj) ?_
  rw [getField_defaultField_ne _ _ _ _ (by decide)]
  exact h

theorem wsdOpts_checkpoints (opts : JSValue) (hobj : opts.isObj = true)
    (h : (opts.getField "blockHashCheckpoints").truthy = false) :
    (walletSyncDataOpts opts).getField "blockHashCheckpoints" = .arr [] := by
  unfold walletSyncDataOpts
  rw [getField_defaultField_ne _ _ _ _ (by decide)]
  refine getField_defaultFieldFalsy_falsy _ _ _
    (isObj_defaultField _ _ _ (isObj_defaultField _ _ _ hobj)) ?_
  rw [getField_defaultField_ne _ _ _ _ (by decide),
    getField_defaultField_ne _ _ _ _ (by decide)]
  exact h

theorem wsdOpts_skip (opts : JSValue) (hobj : opts.isObj = true)
    (h : (opts.getField "skipCoinbaseTransactions").isUndefined = true) :
    (walletSyncDataOpts opts).getField "skipCoinbaseTransactions" = .bool false := by
  unfold walletSyncDataOpts
  refine getField_defaultField_absent _ _ _
    (isObj_defaultFieldFalsy _ _ _
      (isObj_defaultField _ _ _ (isObj_defaultField _ _ _ hobj))) ?_
  rw [getField_defaultFieldFalsy_ne _ _ _ _ (by decide),
    getField_defaultField_ne _ _ _ _ (by decide),
    getField_defaultField_ne _ _ _ _ (by decide)]
  exact h

theorem blocksDetailedBuild_ok (opts : JSValue) (c : MONCoind)
    (hT : opts.truthy = true) (harr : (opts.getField "blockHashes").isArray = true) :
    (blocksDetailedBuild opts c).snd = .ok (blocksDetailedOpts opts,
      { httpMethod := "POST", uri := mkUri c "queryblocksdetailed",
        body := some (.obj
          [("blockIds", (blocksDetailedOpts opts).getField "blockHashes"),
           ("timestamp", (blocksDetailedOpts opts).getField "timestamp"),
           ("blockCount", (blocksDetailedOpts opts).getField "blockCount")]),
        timeout := c.timeout, forever := c.keepAlive, userAgent := c.userAgent }) := by
  simp [blocksDetailedBuild, hT, harr, ClientM.bind, ClientM.pure,
    rawPostBuild_obj_ok "queryblocksdetailed" _ _ (by decide)]

theorem blocksLiteBuild_ok (opts : JSValue) (c : MONCoind)
    (hT : opts.truthy = true) (harr : (opts.getField "blockHashes").isArray = true) :
    (blocksLiteBuild opts c).snd = .ok (blocksLiteOpts opts,
      { httpMethod := "POST", uri := mkUri c "queryblockslite",
        body := some (.obj
          [("blockIds", (blocksLiteOpts opts).getField "blockHashes"),
           ("timestamp", (blocksLiteOpts opts).getField "timestamp")]),
        timeout := c.timeout, forever := c.keepAlive, userAgent := c.userAgent }) := by
  simp [blocksLiteBuild, hT, harr, ClientM.bind, ClientM.pure,
    rawPostBuild_obj_ok "queryblockslite" _ _ (by decide)]

theorem walletSyncDataBuild_ok (opts : JSValue) (c : MONCoind) (hT : opts.truthy = true) :
    (walletSyncDataBuild opts c).snd = .ok (walletSyncDataOpts opts,
      { httpMethod := "POST", uri := mkUri c "getwalletsyncdata",
        body := some (.obj
          [("startHeight", (walletSyncDataOpts opts).getField "startHeight"),
           ("startTimestamp", (walletSyncDataOpts opts).getField "startTimestamp"),
           ("blockHashCheckpoints", (walletSyncDataOpts opts).getField "blockHashCheckpoints"),
           ("skipCoinbaseTransactions",
             (walletSyncDataOpts opts).getField "skipCoinbaseTransactions")]),
        timeout := c.timeout, forever := c.keepAlive, userAgent := c.userAgent }) := by
  simp [walletSyncDataBuild, hT, ClientM.bind, ClientM.pure,
    rawPostBuild_obj_ok "getwalletsyncdata" _ _ (by decide)]

/-- C10: `blocksDetailed`, `blocksLite` and `walletSyncData` mutate the
caller-supplied options object: when a defaulted field is absent
(`timestamp` / `blockCount` for `blocksDetailed`, `timestamp` for
`blocksLite`, `startHeight` / `startTimestamp` / `blockHashCheckpoints`
/ `skipCoinbaseTransactions` for `walletSyncData`), the operation
writes the default into that same object before issuing the request:
the options object the call hands back alongside the request carries
the default under a key the caller's object did not have. -/
theorem c10_opts_mutation :
    (∀ (opts : JSValue) (c : MONCoind), opts.isObj = true →
       (opts.getField "blockHashes").isArray = true →
       (opts.getField "timestamp").isUndefined = true →
       Except.map (fun pr => pr.fst.getField "timestamp") (blocksDetailedBuild opts c).snd
         = .ok (.num 0)) ∧
    (∀ (opts : JSValue) (c : MONCoind), opts.isObj = true →
       (opts.getField "blockHashes").isArray = true →
       (opts.getField "blockCount").isUndefined = true →
       Except.map (fun pr => pr.fst.getField "blockCount") (blocksDetailedBuild opts c).snd
         = .ok (.num 100)) ∧
    (∀ (opts : JSValue) (c : MONCoind), opts.isObj = true →
       (opts.getField "blockHashes").isArray = true →
       (opts.getField "timestamp").isUndefined = true →
       Except.map (fun pr => pr.fst.getField "timestamp") (blocksLiteBuild opts c).snd
         = .ok (.num 0)) ∧
    (∀ (opts : JSValue) (c : MONCoind), opts.isObj = true →
       (opts.getField "startHeight").isUndefined = true →
       Except.map (fun pr => pr.fst.getField "startHeight") (walletSyncDataBuild opts c).snd
         = .ok (.num 0)) ∧
    (∀ (opts : JSValue) (c : MONCoind), opts.isObj = true →
       (opts.getField "startTimestamp").isUndefined = true →
       Except.map (fun pr => pr.fst.getField "startTimestamp")
           (walletSyncDataBuild opts c).snd
         = .ok (.num 0)) ∧
    (∀ (opts : JSValue) (c : MONCoind), opts.isObj = true →
       (opts.getField "blockHashCheckpoints").truthy = false →
       Except.map (fun pr => pr.fst.getField "blockHashCheckpoints")
           (walletSyncDataBuild opts c).snd
         = .ok (.arr [])) ∧
    (∀ (opts : JSValue) (c : MONCoind), opts.isObj = true →
       (opts.getField "skipCoinbaseTransactions").isUndefined = true →
       Except.map (fun pr => pr.fst.getField "skipCoinbaseTransactions")
           (walletSyncDataBuild opts c).snd
         = .ok (.bool false)) := by
  refine ⟨?_, ?_, ?_, ?_, ?_, ?_, ?_⟩
  · intro opts c hobj harr h
    rw [blocksDetailedBuild_ok opts c (JSValue.isObj_truthy _ hobj) harr]
    simp [Except.map, bdOpts_timestamp opts hobj h]
  · intro opts c hobj harr h
    rw [blocksDetailedBuild_ok opts c (JSValue.isObj_truthy _ hobj) harr]
    simp [Except.map, bdOpts_blockCount opts hobj h]
  · intro opts c hobj harr h
    rw [blocksLiteBuild_ok opts c (JSValue.isObj_truthy _ hobj) harr]
    simp [Except.map, blocksLiteOpts, getField_defaultField_absent _ _ _ hobj h]
  · intro opts c hobj h
    rw [walletSyncDataBuild_ok opts c (JSValue.isObj_truthy _ hobj)]
    simp [Except.map, wsdOpts_startHeight opts hobj h]
  · intro opts c hobj h
    rw [walletSyncDataBuild_ok opts c (JSValue.isObj_truthy _ hobj)]
    simp [Except.map, wsdOpts_startTimestamp opts hobj h]
  · intro opts c hobj h
    rw [walletSyncDataBuild_ok opts c (JSValue.isObj_truthy _ hobj)]
    simp [Except.map, wsdOpts_checkpoints opts hobj h]
  · intro opts c hobj h
    rw [walletSyncDataBuild_ok opts c (JSValue.isObj_truthy _ hobj)]
    simp [Except.map, wsdOpts_skip opts hobj h]

/-- C10 witness: all seven defaulted fields on concrete options objects
that lack them. -/
theorem c10_opts_mutation_witness :
    Except.map (fun pr => pr.fst.getField "timestamp")
        (blocksDetailedBuild (.obj [("blockHashes", .arr [])])
          (MONCoind.make (.obj [("port", .num 2000)]))).snd = .ok (.num 0) ∧
    Except.map (fun pr => pr.fst.getField "blockCount")
        (blocksDetailedBuild (.obj [("blockHashes", .arr [])])
          (MONCoind.make (.obj [("port", .num 2000)]))).snd = .ok (.num 100) ∧
    Except.map (fun pr => pr.fst.getField "timestamp")
        (blocksLiteBuild (.obj [("blockHashes", .arr [])])
          (MONCoind.make (.obj [("port", .num 2000)]))).snd = .ok (.num 0) ∧
    Except.map (fun pr => pr.fst.getField "startHeight")
        (walletSyncDataBuild (.obj [])
          (MONCoind.make (.obj [("port", .num 2000)]))).snd = .ok (.num 0) ∧
    Except.map (fun pr => pr.fst.getField "startTimestamp")
        (walletSyncDataBuild (.obj [])
          (MONCoind.make (.obj [("port", .num 2000)]))).snd = .ok (.num 0) ∧
    Except.map (fun pr => pr.fst.getField "blockHashCheckpoints")
        (walletSyncDataBuild (.obj [])
          (MONCoind.make (.obj [("port", .num 2000)]))).snd = .ok (.arr []) ∧
    Except.map (fun pr => pr.fst.getField "skipCoinbaseTransactions")
        (walletSyncDataBuild (.obj [])
          (MONCoind.make (.obj [("port", .num 2000)]))).snd = .ok (.bool false) := by
  obtain ⟨h1, h2, h3, h4, h5, h6, h7⟩ := c10_opts_mutation
  exact ⟨h1 _ _ rfl rfl rfl, h2 _ _ rfl rfl rfl, h3 _ _ rfl rfl rfl,
    h4 _ _ rfl rfl, h5 _ _ rfl rfl, h6 _ _ rfl rfl, h7 _ _ rfl rfl⟩

/-! ### Claim C9: configuration immutability -/

theorem preserves_blockBuild (hv : JSValue) : (blockBuild hv).Preserves := by
  unfold blockBuild
  exact preserves_ite _ (preserves_throw _) (preserves_postBuild _ _)

theorem preserves_blockCountBuild : blockCountBuild.Preserves := by
  unfold blockCountBuild
  exact preserves_postBuild _ _

theorem preserves_blockHeaderByHashBuild (hv : JSValue) :
    (blockHeaderByHashBuild hv).Preserves := by
  unfold blockHeaderByHashBuild
  exact preserves_ite _ (preserves_throw _) (preserves_postBuild _ _)

theorem preserves_blockHeaderByHeightBuild (hv : JSValue) :
    (blockHeaderByHeightBuild hv).Preserves := by
  unfold blockHeaderByHeightBuild
  exact preserves_ite _ (preserves_throw _) (preserves_postBuild _ _)

theorem preserves_blockShortHeadersBuild (hv : JSValue) :
    (blockShortHeadersBuild hv).Preserves := by
  unfold blockShortHeadersBuild
  exact preserves_ite _ (preserves_throw _) (preserves_postBuild _ _)

theorem preserves_blocksDetailedBuild (opts : JSValue) :
    (blocksDetailedBuild opts).Preserves := by
  unfold blocksDetailedBuild
  exact preserves_ite _ (preserves_throw _)
    (preserves_bind (preserves_rawPostBuild _ _) (fun _ => preserves_pure _))

theorem preserves_blocksLiteBuild (opts : JSValue) : (blocksLiteBuild opts).Preserves := by
  unfold blocksLiteBuild
  exact preserves_ite _ (preserves_throw _)
    (preserves_bind (preserves_rawPostBuild _ _) (fun _ => preserves_pure _))

theorem preserves_blockTemplateBuild (w r : JSValue) :
    (blockTemplateBuild w r).Preserves := by
  unfold blockTemplateBuild
  exact preserves_ite _ (preserves_throw _)
    (preserves_ite _ (preserves_throw _) (preserves_postBuild _ _))

theorem preserves_globalIndexesBuild (hv : JSValue) :
    (globalIndexesBuild hv).Preserves := by
  unfold globalIndexesBuild
  exact preserves_ite _ (preserves_throw _) (preserves_rawPostBuild _ _)

theorem preserves_globalIndexesForRangeBuild (s e : JSValue) :
    (globalIndexesForRangeBuild s e).Preserves := by
  unfold globalIndexesForRangeBuild
  exact preserves_ite _ (preserves_throw _)
    (preserves_ite _ (preserves_throw _) (preserves_rawPostBuild _ _))

theorem preserves_lastBlockHeaderBuild : lastBlockHeaderBuild.Preserves := by
  unfold lastBlockHeaderBuild
  exact preserves_postBuild _ _

theorem preserves_poolChangesBuild (a b : JSValue) :
    (poolChangesBuild a b).Preserves := by
  unfold poolChangesBuild
  exact preserves_ite _ (preserves_throw _)
    (preserves_ite _ (preserves_throw _) (preserves_rawPostBuild _ _))

theorem preserves_randomOutputsBuild (amounts mixin : JSValue) :
    (randomOutputsBuild amounts mixin).Preserves := by
  unfold randomOutputsBuild
  refine preserves_ite _ (preserves_throw _) (preserves_ite _ (preserves_throw _) ?_)
  rcases hp : parseIntJS mixin with _ | n
  · exact preserves_throw _
  · exact preserves_rawPostBuild _ _

theorem preserves_rawBlocksBuild (a b : JSValue) : (rawBlocksBuild a b).Preserves := by
  unfold rawBlocksBuild
  exact preserves_ite _ (preserves_throw _)
    (preserves_ite _ (preserves_throw _) (preserves_rawPostBuild _ _))

theorem preserves_sendRawTransactionBuild (a : JSValue) :
    (sendRawTransactionBuild a).Preserves := by
  unfold sendRawTransactionBuild
  exact preserves_ite _ (preserves_throw _) (preserves_rawPostBuild _ _)

theorem preserves_submitBlockBuild (a : JSValue) : (submitBlockBuild a).Preserves := by
  unfold submitBlockBuild
  exact preserves_ite _ (preserves_throw _) (preserves_postBuild _ _)

theorem preserves_transactionBuild (hv : JSValue) : (transactionBuild hv).Preserves := by
  unfold transactionBuild
  exact preserves_ite _ (preserves_throw _) (preserves_postBuild _ _)

theorem preserves_transactionPoolBuild : transactionPoolBuild.Preserves := by
  unfold transactionPoolBuild
  exact preserves_postBuild _ _

theorem preserves_transactionsStatusBuild (a : JSValue) :
    (transactionsStatusBuild a).Preserves := by
  unfold transactionsStatusBuild
  exact preserves_ite _ (preserves_throw _) (preserves_rawPostBuild _ _)

theorem preserves_walletSyncDataBuild (opts : JSValue) :
    (walletSyncDataBuild opts).Preserves := by
  unfold walletSyncDataBuild
  exact preserves_bind (preserves_rawPostBuild _ _) (fun _ => preserves_pure _)

/-- C9: the configuration fields (host, port, timeout, ssl, userAgent,
keepAlive) are set by the constructor and no operation mutates them:
for every operation of the class, for every argument, transport and
starting configuration, the client state after the call equals the
state before it. -/
theorem c9_config_immutable :
    (∀ (hv : JSValue) (t : Request → JSValue) (c : MONCoind), (blockRun hv t c).fst = c) ∧
    (∀ (t : Request → JSValue) (c : MONCoind), (blockCountRun t c).fst = c) ∧
    (∀ (hv : JSValue) (t : Request → JSValue) (c : MONCoind),
      (blockHeaderByHashRun hv t c).fst = c) ∧
    (∀ (hv : JSValue) (t : Request → JSValue) (c : MONCoind),
      (blockHeaderByHeightRun hv t c).fst = c) ∧
    (∀ (hv : JSValue) (t : Request → JSValue) (c : MONCoind),
      (blockShortHeadersRun hv t c).fst = c) ∧
    (∀ (opts : JSValue) (t : Request → JSValue) (c : MONCoind),
      (blocksDetailedRun opts t c).fst = c) ∧
    (∀ (opts : JSValue) (t : Request → JSValue) (c : MONCoind),
      (blocksLiteRun opts t c).fst = c) ∧
    (∀ (w r : JSValue) (t : Request → JSValue) (c : MONCoind),
      (blockTemplateRun w r t c).fst = c) ∧
    (∀ (t : Request → JSValue) (c : MONCoind), (feeRun t c).fst = c) ∧
    (∀ (hv : JSValue) (t : Request → JSValue) (c : MONCoind),
      (globalIndexesRun hv t c).fst = c) ∧
    (∀ (s e : JSValue) (t : Request → JSValue) (c : MONCoind),
      (globalIndexesForRangeRun s e t c).fst = c) ∧
    (∀ (t : Request → JSValue) (c : MONCoind), (heightRun t c).fst = c) ∧
    (∀ (t : Request → JSValue) (c : MONCoind), (infoRun t c).fst = c) ∧
    (∀ (t : Request → JSValue) (c : MONCoind), (lastBlockHeaderRun t c).fst = c) ∧
    (∀ (t : Request → JSValue) (c : MONCoind), (peersRun t c).fst = c) ∧
    (∀ (a b : JSValue) (t : Request → JSValue) (c : MONCoind),
      (poolChangesRun a b t c).fst = c) ∧
    (∀ (a b : JSValue) (t : Request → JSValue) (c : MONCoind),
      (randomOutputsRun a b t c).fst = c) ∧
    (∀ (a b : JSValue) (t : Request → JSValue) (c : MONCoind),
      (rawBlocksRun a b t c).fst = c) ∧
    (∀ (a : JSValue) (t : Request → JSValue) (c : MONCoind),
      (sendRawTransactionRun a t c).fst = c) ∧
    (∀ (a : JSValue) (t : Request → JSValue) (c : MONCoind),
      (submitBlockRun a t c).fst = c) ∧
    (∀ (hv : JSValue) (t : Request → JSValue) (c : MONCoind),
      (transactionRun hv t c).fst = c) ∧
    (∀ (t : Request → JSValue) (c : MONCoind), (transactionPoolRun t c).fst = c) ∧
    (∀ (a : JSValue) (t : Request → JSValue) (c : MONCoind),
      (transactionsStatusRun a t c).fst = c) ∧
    (∀ (opts : JSValue) (t : Request → JSValue) (c : MONCoind),
      (walletSyncDataRun opts t c).fst = c) := by
  refine ⟨?_, ?_, ?_, ?_, ?_, ?_, ?_, ?_, ?_, ?_, ?_, ?_, ?_, ?_, ?_, ?_, ?_, ?_, ?_, ?_,
    ?_, ?_, ?_, ?_⟩
  · intro hv t c
    unfold blockRun
    exact runOp_fst _ _ _ (preserves_blockBuild hv)
  · intro t c
    unfold blockCountRun
    exact runOp_fst _ _ _ preserves_blockCountBuild
  · intro hv t c
    unfold blockHeaderByHashRun
    exact runOp_fst _ _ _ (preserves_blockHeaderByHashBuild hv)
  · intro hv t c
    unfold blockHeaderByHeightRun
    exact runOp_fst _ _ _ (preserves_blockHeaderByHeightBuild hv)
  · intro hv t c
    unfold blockShortHeadersRun
    exact runOp_fst _ _ _ (preserves_blockShortHeadersBuild hv)
  · intro opts t c
    unfold blocksDetailedRun
    exact runOp_fst _ _ _ (preserves_map _ (preserves_blocksDetailedBuild opts))
  · intro opts t c
    unfold blocksLiteRun
    exact runOp_fst _ _ _ (preserves_map _ (preserves_blocksLiteBuild opts))
  · intro w r t c
    unfold blockTemplateRun
    exact runOp_fst _ _ _ (preserves_blockTemplateBuild w r)
  · intro t c
    unfold feeRun
    exact runOp_fst _ _ _ (preserves_getBuild _)
  · intro hv t c
    unfold globalIndexesRun
    exact runOp_fst _ _ _ (preserves_globalIndexesBuild hv)
  · intro s e t c
    unfold globalIndexesForRangeRun
    exact runOp_fst _ _ _ (preserves_globalIndexesForRangeBuild s e)
  · intro t c
    unfold heightRun
    exact runOp_fst _ _ _ (preserves_getBuild _)
  · intro t c
    unfold infoRun
    exact runOp_fst _ _ _ (preserves_getBuild _)
  · intro t c
    unfold lastBlockHeaderRun
    exact runOp_fst _ _ _ preserves_lastBlockHeaderBuild
  · intro t c
    unfold peersRun
    exact runOp_fst _ _ _ (preserves_getBuild _)
  · intro a b t c
    unfold poolChangesRun
    exact runOp_fst _ _ _ (preserves_poolChangesBuild a b)
  · intro a b t c
    unfold randomOutputsRun
    exact runOp_fst _ _ _ (preserves_randomOutputsBuild a b)
  · intro a b t c
    unfold rawBlocksRun
    exact runOp_fst _ _ _ (preserves_rawBlocksBuild a b)
  · intro a t c
    unfold sendRawTransactionRun
    exact runOp_fst _ _ _ (preserves_sendRawTransactionBuild a)
  · intro a t c
    unfold submitBlockRun
    exact runOp_fst _ _ _ (preserves_submitBlockBuild a)
  · intro hv t c
    unfold transactionRun
    exact runOp_fst _ _ _ (preserves_transactionBuild hv)
  · intro t c
    unfold transactionPoolRun
    exact runOp_fst _ _ _ preserves_transactionPoolBuild
  · intro a t c
    unfold transactionsStatusRun
    exact runOp_fst _ _ _ (preserves_transactionsStatusBuild a)
  · intro opts t c
    unfold walletSyncDataRun
    exact runOp_fst _ _ _ (preserves_map _ (preserves_walletSyncDataBuild opts))
